import Mathlib

/-!
Verification of the CRM AI Studio evidence-grounded orchestration pipeline.

This file shallowly embeds the TypeScript core of the repository
(`packages/policies`, `packages/orchestrator`, `packages/connectors`,
`packages/shared` and the Nuxt SSE endpoint) in Lean 4 and proves or refutes
the specification claims about it.

External effects are modelled as explicit oracle parameters:
the SQL parser (`pgsql-ast-parser`), the database/RAG connectors, wall-clock
timestamps, UUID generation and the SHA-256 hash are functions supplied to the
embedded code, since they are not part of this repository.  The AST shape is
the one the repository's own `ParsedSelect` interface and `extractLimitValue`
declare (`sql-policy.ts`).
-/

namespace CrmAi

/-! ## JSON values (TypeScript `unknown` record payloads) -/

/-- A JSON value.  `num` carries an integer; the claims under study never
exercise non-integer numbers. -/
inductive Json where
  | str (s : String)
  | num (n : Int)
  | bool (b : Bool)
  | null
  | arr (items : List Json)
  | obj (fields : List (String × Json))
deriving Repr, Inhabited

/-- A JS object / TS `Record<string, unknown>`: insertion-ordered fields. -/
abbrev JsRecord := List (String × Json)

/-- Escape one character as inside `JSON.stringify` output. -/
def jsonEscapeChar (c : Char) : String :=
  if c = '"' then "\\\""
  else if c = '\\' then "\\\\"
  else if c = '\n' then "\\n"
  else if c = '\r' then "\\r"
  else if c = '\t' then "\\t"
  else String.singleton c

/-- Escape a string as inside `JSON.stringify` output. -/
def jsonEscape (s : String) : String :=
  s.data.foldl (fun acc c => acc ++ jsonEscapeChar c) ""

mutual

/-- `JSON.stringify` (no spacing), used for checksums and the mock answer. -/
def Json.stringify : Json → String
  | .str s => "\"" ++ jsonEscape s ++ "\""
  | .num n => toString n
  | .bool b => if b then "true" else "false"
  | .null => "null"
  | .arr items => "[" ++ Json.stringifyItems items ++ "]"
  | .obj fields => "\x7b" ++ Json.stringifyFields fields ++ "\x7d"

def Json.stringifyItems : List Json → String
  | [] => ""
  | [x] => Json.stringify x
  | x :: y :: rest => Json.stringify x ++ "," ++ Json.stringifyItems (y :: rest)

def Json.stringifyFields : List (String × Json) → String
  | [] => ""
  | [(k, v)] => "\"" ++ jsonEscape k ++ "\":" ++ Json.stringify v
  | (k, v) :: y :: rest =>
      "\"" ++ jsonEscape k ++ "\":" ++ Json.stringify v ++ "," ++ Json.stringifyFields (y :: rest)

end

/-- Look a key up in a JS object (TS `args['k']`). -/
def lookupArg (args : JsRecord) (key : String) : Option Json :=
  (args.find? (fun kv => kv.1 == key)).map (·.2)

/-- JS object spread `{ ...args, key: v }`: overwrite in place or append. -/
def setArg (args : JsRecord) (key : String) (v : Json) : JsRecord :=
  if args.any (fun kv => kv.1 == key) then
    args.map (fun kv => if kv.1 == key then (key, v) else kv)
  else args ++ [(key, v)]

/-! ## String machinery for the SQL LIMIT regex

`replaceLimitInSql` uses `sql.replace(/\bLIMIT\s+\d+/i, ...)`.  We model that
regex exactly on character lists: a word boundary, the five letters of LIMIT
case-insensitively, one or more whitespace characters, one or more digits. -/

/-- JS `\w` (ASCII word character). -/
def isWordChar (c : Char) : Bool :=
  c.isAlpha || c.isDigit || c == '_'

/-- JS `\s` restricted to the ASCII whitespace the code can meet. -/
def isJsSpace (c : Char) : Bool :=
  c == ' ' || c == '\t' || c == '\n' || c == '\r' || c == '\x0b' || c == '\x0c'

/-- Case-insensitive comparison of a character with a lowercase letter. -/
def lowEq (c : Char) (d : Char) : Bool := c.toLower == d

/-- JS `toLowerCase` (ASCII, the only case the code meets). -/
def jsToLower (s : String) : String := String.mk (s.data.map Char.toLower)

/-- JS `toUpperCase` (ASCII). -/
def jsToUpper (s : String) : String := String.mk (s.data.map Char.toUpper)

/-- JS `trim` over the ASCII whitespace the code meets. -/
def jsTrim (s : String) : String :=
  String.mk (((s.data.dropWhile isJsSpace).reverse.dropWhile isJsSpace).reverse)

/-- JS `endsWith` for a single-character suffix. -/
def endsWithChar (s : String) (c : Char) : Bool := s.data.getLast? == some c

/-- JS `slice(0, n)` of a string. -/
def takeFirst (n : Nat) (s : String) : String := String.mk (s.data.take n)

/-- Numeric value of a digit run, most significant first (JS parse of `\d+`). -/
def digitsVal (ds : List Char) : Nat :=
  ds.foldl (fun acc c => acc * 10 + (c.toNat - 48)) 0

/-- Try to match `LIMIT\s+\d+` (case-insensitive) at the head of the list.
Returns the literal value and the remainder after the match. -/
def matchLimitHead (cs : List Char) : Option (Nat × List Char) :=
  match cs with
  | c1 :: c2 :: c3 :: c4 :: c5 :: rest =>
    if lowEq c1 'l' && lowEq c2 'i' && lowEq c3 'm' && lowEq c4 'i' && lowEq c5 't' then
      let ws := rest.takeWhile isJsSpace
      let afterWs := rest.dropWhile isJsSpace
      if ws.isEmpty then none
      else
        let ds := afterWs.takeWhile Char.isDigit
        let afterDs := afterWs.dropWhile Char.isDigit
        if ds.isEmpty then none else some (digitsVal ds, afterDs)
    else none
  | _ => none

/-- Decimal digits of a natural number, most significant first; `fuel` bounds
the recursion depth (any `fuel ≥ n + 1` gives the digits). -/
def decDigitsAux : Nat → Nat → List Char
  | 0, _ => []
  | fuel + 1, n =>
    if n < 10 then [Char.ofNat (48 + n)]
    else decDigitsAux fuel (n / 10) ++ [Char.ofNat (48 + n % 10)]

/-- Decimal digits of a natural number, most significant first. -/
def decDigits (n : Nat) : List Char :=
  decDigitsAux (n + 1) n

/-- Decimal rendering of a natural number (JS template `${n}` for an int). -/
def decimalString (n : Nat) : String :=
  String.mk (decDigits n)

/-- `sql.replace(/\bLIMIT\s+\d+/i, "LIMIT " + newLimit)`: replace the first
match, scanning left to right with word-boundary tracking. -/
def replaceLimitChars (newLimit : Nat) : Bool → List Char → List Char
  | _, [] => []
  | prevWord, c :: rest =>
    if !prevWord then
      match matchLimitHead (c :: rest) with
      | some (_, after) => ("LIMIT " ++ decimalString newLimit).data ++ after
      | none => c :: replaceLimitChars newLimit (isWordChar c) rest
    else c :: replaceLimitChars newLimit (isWordChar c) rest

/-- The literal values of all `\bLIMIT\s+\d+` matches, left to right.

The scanner advances one character at a time, recording a match at every
position where the word boundary holds and `matchLimitHead` succeeds.  This
coincides with the regex engine's global scan (which jumps past each match):
a match of this regex is the word LIMIT followed by whitespace and digits,
and no match can begin strictly inside another (every interior character is
one of `i m i t`, whitespace, or a digit — never an `l`/`L`), so the two
scans see exactly the same matches. -/
def limitLiteralsAux : Bool → List Char → List Nat
  | _, [] => []
  | prevWord, c :: rest =>
    let tail := limitLiteralsAux (isWordChar c) rest
    if !prevWord then
      match matchLimitHead (c :: rest) with
      | some (v, _) => v :: tail
      | none => tail
    else tail

/-- Does the five-letter word LIMIT occur (case-insensitively) anywhere? -/
def containsLimitWord : List Char → Bool
  | c1 :: c2 :: c3 :: c4 :: c5 :: rest =>
    (lowEq c1 'l' && lowEq c2 'i' && lowEq c3 'm' && lowEq c4 'i' && lowEq c5 't') ||
      containsLimitWord (c2 :: c3 :: c4 :: c5 :: rest)
  | _ => false

/-- The literal LIMIT values of a SQL string. -/
def limitLiterals (s : String) : List Nat :=
  limitLiteralsAux false s.data

/-- String-level `replaceLimitInSql` body. -/
def replaceLimitStr (s : String) (newLimit : Nat) : String :=
  String.mk (replaceLimitChars newLimit false s.data)

/-- The claim's "contains exactly one LIMIT clause whose literal value is
at most maxRows", read over the SQL text. -/
def exactlyOneLimitLe (s : String) (maxRows : Nat) : Bool :=
  match limitLiterals s with
  | [v] => v ≤ maxRows
  | _ => false

/-- The claim's "begins (after leading whitespace) with SELECT",
case-insensitively. -/
def startsWithSelect (s : String) : Bool :=
  "select".data.isPrefixOf ((s.data.dropWhile isJsSpace).map Char.toLower)

/-- The character suffix produced by appending `" LIMIT " ++ decimalString m`. -/
def injectedTail (m : Nat) : List Char :=
  ' ' :: 'L' :: 'I' :: 'M' :: 'I' :: 'T' :: ' ' :: decDigits m

/-! ## SQL AST (shape declared by `sql-policy.ts`)

`pgsql-ast-parser` is an external library; the policy only inspects the shape
its own `ParsedSelect` interface and `extractLimitValue` declare: a `select`
node with a `from` array (tables, sub-select statements, other relations) and
an optional `limit` node that is either an integer literal or something else.
The parser itself is an oracle `String → Except String (List Statement)`. -/

/-- The AST node found under `selectStmt.limit`, as `extractLimitValue` reads
it: an integer literal `{ type: 'integer', value: n }` or anything else.
Postgres integer literals are non-negative (a negative limit would be a unary
minus node, hence `nonLiteral`). -/
inductive LimitNode where
  | integer (value : Nat)
  | nonLiteral
deriving Repr, DecidableEq, Inhabited

mutual

/-- A `SELECT` statement as `ParsedSelect` declares it. -/
inductive ParsedSelect : Type where
  | mk (fromItems : List FromItem) (limit : Option LimitNode) : ParsedSelect

/-- One entry of the `FROM` array: a base table (whose `name` may be absent),
a sub-select statement, or any other relation kind. -/
inductive FromItem : Type where
  | table (name : Option String) : FromItem
  | sub (stmt : ParsedSelect) : FromItem
  | otherRel : FromItem

end

/-- A parsed top-level statement: a `SELECT` or any other statement type,
carrying its `type` string (e.g. `"update"`). -/
inductive Statement where
  | select (sel : ParsedSelect)
  | otherStmt (tyName : String)

/-- The external SQL parser: `parse` from `pgsql-ast-parser`.  `Except.error`
models a parser throw. -/
abbrev SqlParse := String → Except String (List Statement)

mutual

/-- `extractTables`: walk the FROM clause, recursing into sub-selects,
collecting deduplicated non-empty base-table names in discovery order. -/
def extractTables : ParsedSelect → List String → List String
  | .mk fromItems _, tables => extractTablesFrom fromItems tables

def extractTablesFrom : List FromItem → List String → List String
  | [], tables => tables
  | .table name :: rest, tables =>
      let tables :=
        match name with
        | some n => if n ≠ "" && !tables.contains n then tables ++ [n] else tables
        | none => tables
      extractTablesFrom rest tables
  | .sub s :: rest, tables => extractTablesFrom rest (extractTables s tables)
  | .otherRel :: rest, tables => extractTablesFrom rest tables

end

/-! ## SQL Safety Policy (`packages/policies/src/sql-policy.ts`) -/

/-- `SqlPolicyConfig`.  `maxRows` is the TS number used as a row cap; the code
only ever renders and compares it, and every configuration in the repository
is a non-negative integer. -/
structure SqlPolicyConfig where
  maxRows : Nat
  allowedTables : List String
  allowedColumns : List String
  forbiddenFunctions : List String
deriving Repr, DecidableEq

/-- `DEFAULT_FORBIDDEN_FUNCTIONS`. -/
def DEFAULT_FORBIDDEN_FUNCTIONS : List String :=
  ["pg_sleep", "dblink", "lo_import", "lo_export", "pg_read_file", "pg_write_file",
   "pg_ls_dir", "pg_stat_file", "pg_terminate_backend", "pg_cancel_backend",
   "set_config", "current_setting"]

/-- The `Partial<SqlPolicyConfig>` constructor argument. -/
structure SqlPolicyInit where
  maxRows : Option Nat := none
  allowedTables : Option (List String) := none
  allowedColumns : Option (List String) := none
  forbiddenFunctions : Option (List String) := none

/-- The `SqlPolicy` constructor's `??` defaulting. -/
def SqlPolicy.configOf (init : SqlPolicyInit) : SqlPolicyConfig :=
  { maxRows := init.maxRows.getD 200
    allowedTables := init.allowedTables.getD []
    allowedColumns := init.allowedColumns.getD []
    forbiddenFunctions := init.forbiddenFunctions.getD DEFAULT_FORBIDDEN_FUNCTIONS }

/-- `SqlValidationResult`. -/
structure SqlValidationResult where
  valid : Bool
  sanitizedSql : String
  effectiveLimit : Nat
  referencedTables : List String
  errors : List String
deriving Repr, DecidableEq

/-- Is `needle` a contiguous sublist of `haystack`? -/
def isSubstrAux : List Char → List Char → Bool
  | needle, [] => needle.isEmpty
  | needle, c :: rest => needle.isPrefixOf (c :: rest) || isSubstrAux needle rest

/-- JS `haystack.includes(needle)`. -/
def containsSubstr (haystack needle : String) : Bool :=
  isSubstrAux needle.data haystack.data

/-- `extractLimitValue`: numeric value of the LIMIT node if it is an integer
literal. -/
def extractLimitValue : Option LimitNode → Option Nat
  | none => none
  | some (.integer v) => some v
  | some .nonLiteral => none

/-- `replaceLimitInSql`. -/
def replaceLimitInSql (sql : String) (newLimit : Nat) : String :=
  replaceLimitStr sql newLimit

/-- The limit field of a parsed select. -/
def ParsedSelect.limit : ParsedSelect → Option LimitNode
  | .mk _ l => l

/-- Step 7 preprocessing: trim, then strip one trailing semicolon and trim
again. -/
def stripTrailingSemi (sql : String) : String :=
  let t := jsTrim sql
  if endsWithChar t ';' then jsTrim (String.mk t.data.dropLast) else t

/-- Step 7 of `validate`: the effective limit and sanitized SQL as a function
of the select's LIMIT node and the semicolon-stripped SQL. -/
def forcedLimit (cfg : SqlPolicyConfig) (limitNode : Option LimitNode) (sanitized : String) :
    Nat × String :=
  match limitNode with
  | some node =>
    match extractLimitValue (some node) with
    | some existingLimit =>
      let eff := min existingLimit cfg.maxRows
      (eff, replaceLimitInSql sanitized eff)
    | none => (cfg.maxRows, sanitized)
  | none => (cfg.maxRows, sanitized ++ " LIMIT " ++ decimalString cfg.maxRows)

/-- Step 5 of `validate`: per-table allowlist errors (empty allowlist is
permissive). -/
def SqlPolicy.tableErrors (cfg : SqlPolicyConfig) (referencedTables : List String) :
    List String :=
  if cfg.allowedTables.length > 0 then
    (referencedTables.filter (fun t => !cfg.allowedTables.contains t)).map
      (fun t => "Table \"" ++ t ++ "\" is not in the allowlist. Allowed tables: " ++
        String.intercalate ", " cfg.allowedTables ++ ".")
  else []

/-- Step 6 of `validate`: the case-insensitive forbidden-function text scan. -/
def SqlPolicy.fnErrors (cfg : SqlPolicyConfig) (sql : String) : List String :=
  (cfg.forbiddenFunctions.filter
    (fun fn => containsSubstr (jsToLower sql) (jsToLower fn))).map
    (fun fn => "Forbidden function detected: " ++ fn ++ ".")

/-- Steps 4-8 of `validate` for a single parsed `SELECT`. -/
def SqlPolicy.validateSelect (cfg : SqlPolicyConfig) (sql : String)
    (selectStmt : ParsedSelect) : SqlValidationResult :=
  let referencedTables := extractTables selectStmt []
  let errors := SqlPolicy.tableErrors cfg referencedTables ++ SqlPolicy.fnErrors cfg sql
  let fl := forcedLimit cfg selectStmt.limit (stripTrailingSemi sql)
  if errors.length > 0 then
    { valid := false, sanitizedSql := fl.2, effectiveLimit := fl.1, referencedTables, errors }
  else
    { valid := true, sanitizedSql := fl.2, effectiveLimit := fl.1, referencedTables, errors := [] }

/-- `SqlPolicy.validate`.  `Except.error` models the `SqlSafetyError` throw on
parse failure; every other outcome is returned as a result value. -/
def SqlPolicy.validate (cfg : SqlPolicyConfig) (parse : SqlParse) (sql : String) :
    Except String SqlValidationResult := do
  -- Step 1: parse AST (parse failure throws SqlSafetyError)
  let statements ←
    match parse sql with
    | .error m => .error ("Failed to parse SQL: " ++ m)
    | .ok s => .ok s
  -- Step 2: single statement only
  if statements.length == 0 then
    return { valid := false, sanitizedSql := sql, effectiveLimit := 0,
             referencedTables := [], errors := ["Empty SQL query."] }
  if statements.length > 1 then
    return { valid := false, sanitizedSql := sql, effectiveLimit := 0,
             referencedTables := [],
             errors := ["Multiple statements are not allowed. Only single SELECT queries are permitted."] }
  -- Step 3: SELECT-only
  match statements.head? with
  | none => return { valid := false, sanitizedSql := sql, effectiveLimit := 0,
                     referencedTables := [], errors := ["Empty SQL query."] }
  | some (.otherStmt tyName) =>
    return { valid := false, sanitizedSql := sql, effectiveLimit := 0,
             referencedTables := [],
             errors := ["Only SELECT queries are allowed. Received: " ++ jsToUpper tyName ++ "."] }
  | some (.select selectStmt) =>
    return SqlPolicy.validateSelect cfg sql selectStmt

/-! ## Shared data model (`packages/shared/src/schemas`) -/

/-- `ToolCall.status`. -/
inductive ToolStatus where
  | pending | running | success | error | blocked
deriving Repr, DecidableEq, Inhabited

/-- A tool call audit record. -/
structure ToolCall where
  id : String
  threadId : String
  workspaceId : String
  messageId : String
  toolName : String
  toolArgs : JsRecord
  status : ToolStatus
  startedAt : String
  finishedAt : Option String
  durationMs : Option Int
  errorMessage : Option String
  createdAt : String
deriving Repr, Inhabited

/-- A tool result record.  `rowCount` is `number | null | undefined` in TS;
`null` and `undefined` behave identically in every use site (`??`, `!==`
checks), so both map to `none`. -/
structure ToolResult where
  id : String
  toolCallId : String
  threadId : String
  workspaceId : String
  data : JsRecord
  rowCount : Option Int
  checksum : Option String
  previewRows : Option (List JsRecord)
  createdAt : Option String
deriving Repr, Inhabited

/-- `EvidenceCheck.evidenceType` / `Citation.evidenceType`. -/
inductive EvidenceType where
  | tool_result | chunk
deriving Repr, DecidableEq, Inhabited

/-- An evidence check produced by the verifier. -/
structure EvidenceCheck where
  claim : String
  supported : Bool
  evidenceId : Option String
  evidenceType : Option EvidenceType
  reason : Option String
deriving Repr, Inhabited, DecidableEq

/-- The verifier's report. -/
structure VerifierReport where
  approved : Bool
  checks : List EvidenceCheck
  summary : Option String
  suggestedActions : Option (List String)
deriving Repr, Inhabited, DecidableEq

/-- A citation inside an answer. -/
structure Citation where
  index : Int
  evidenceId : String
  evidenceType : EvidenceType
  label : Option String
deriving Repr, Inhabited, DecidableEq

/-- A follow-up suggestion. -/
structure FollowUp where
  text : String
  planHint : Option String
deriving Repr, Inhabited, DecidableEq

/-- The final grounded answer. -/
structure Answer where
  content : String
  citations : List Citation
  followUps : Option (List FollowUp)
deriving Repr, Inhabited, DecidableEq

/-- One planned tool action. -/
structure PlanAction where
  tool : String
  args : JsRecord
  reason : Option String
deriving Repr, Inhabited

/-- Plan constraints. -/
structure PlanConstraints where
  maxRows : Option Int
  sourceIds : Option (List String)
  allowedTables : Option (List String)
deriving Repr, Inhabited

/-- A validated plan (`needsClarification` has received its zod default). -/
structure Plan where
  intent : String
  actions : List PlanAction
  constraints : Option PlanConstraints
  needsClarification : Bool
  clarificationQuestion : Option String
deriving Repr, Inhabited

/-- The planner's raw, pre-validation output: `needsClarification` may still
be absent. -/
structure RawPlan where
  intent : String
  actions : List PlanAction
  constraints : Option PlanConstraints
  needsClarification : Option Bool
  clarificationQuestion : Option String
deriving Repr, Inhabited

/-- Abstraction of zod's `z.string().uuid()` check: 8-4-4-4-12 hex groups. -/
def isUuid (s : String) : Bool :=
  let cs := s.data
  cs.length == 36 && (List.range 36).all fun i =>
    let c := cs.getD i ' '
    if i == 8 || i == 13 || i == 18 || i == 23 then c == '-'
    else c.isDigit || (c ≥ 'a' && c ≤ 'f') || (c ≥ 'A' && c ≤ 'F')

/-- The validation issues `PlanSchema.safeParse` collects. -/
def PlanSchema.issuesOf (raw : RawPlan) : List String :=
  (if raw.intent.length ≥ 1 then []
   else ["intent: String must contain at least 1 character(s)"]) ++
  (if raw.actions.length ≥ 1 then []
   else ["actions: Array must contain at least 1 element(s)"]) ++
  ((raw.actions.filter (fun a => a.tool.length == 0)).map
    (fun _ => "actions.tool: String must contain at least 1 character(s)")) ++
  (match raw.constraints with
   | none => []
   | some c =>
     (match c.maxRows with
      | some m => if 0 < m then [] else ["constraints.maxRows: Number must be greater than 0"]
      | none => []) ++
     (match c.sourceIds with
      | some ids => (ids.filter (fun s => !isUuid s)).map (fun _ => "constraints.sourceIds: Invalid uuid")
      | none => []))

/-- `PlanSchema.safeParse`: collects all issues; on success applies the
`needsClarification` default `false`.  (`shared/src/schemas/plan.ts`.) -/
def PlanSchema.safeParse (raw : RawPlan) : Except (List String) Plan :=
  if (PlanSchema.issuesOf raw).isEmpty then
    .ok { intent := raw.intent, actions := raw.actions, constraints := raw.constraints,
          needsClarification := raw.needsClarification.getD false,
          clarificationQuestion := raw.clarificationQuestion }
  else .error (PlanSchema.issuesOf raw)

/-! ## Tool Gate (`packages/policies/src/tool-gate.ts`) -/

/-- `ToolGateConfig`. -/
structure ToolGateConfig where
  allowedTools : List String
  toolTimeoutMs : Int
  maxToolCallsPerPlan : Nat
deriving Repr

/-- `Partial<ToolGateConfig>`. -/
structure ToolGateInit where
  allowedTools : Option (List String) := none
  toolTimeoutMs : Option Int := none
  maxToolCallsPerPlan : Option Nat := none

/-- `DEFAULT_CONFIG` of the tool gate. -/
def ToolGate.DEFAULT_CONFIG : ToolGateConfig :=
  { allowedTools := ["sql.query", "rag.search"], toolTimeoutMs := 30000,
    maxToolCallsPerPlan := 10 }

/-- The `ToolGate` constructor's spread `{ ...DEFAULT_CONFIG, ...config }`. -/
def ToolGate.configOf (init : ToolGateInit) : ToolGateConfig :=
  { allowedTools := init.allowedTools.getD ToolGate.DEFAULT_CONFIG.allowedTools
    toolTimeoutMs := init.toolTimeoutMs.getD ToolGate.DEFAULT_CONFIG.toolTimeoutMs
    maxToolCallsPerPlan := init.maxToolCallsPerPlan.getD ToolGate.DEFAULT_CONFIG.maxToolCallsPerPlan }

/-- `ToolGate.validateActions`: `Except.error` models the `PolicyBlockedError`
throw. -/
def ToolGate.validateActions (cfg : ToolGateConfig) (actions : List PlanAction) :
    Except String Unit :=
  if actions.length > cfg.maxToolCallsPerPlan then
    .error ("Plan exceeds maximum tool calls (" ++ toString actions.length ++ " > " ++
      toString cfg.maxToolCallsPerPlan ++ ").")
  else if cfg.allowedTools.length > 0 then
    match actions.find? (fun a => !cfg.allowedTools.contains a.tool) with
    | some a => .error ("Tool \"" ++ a.tool ++ "\" is not allowed. Permitted tools: " ++
        String.intercalate ", " cfg.allowedTools ++ ".")
    | none => .ok ()
  else .ok ()

/-! ## Policy Engine (`packages/orchestrator/src/policy.ts`) -/

/-- A per-action policy decision (`PolicyResult`). -/
structure PolicyResult where
  action : PlanAction
  approved : Bool
  sanitizedArgs : Option JsRecord
  errors : List String
deriving Repr, Inhabited

/-- `PolicyEngine.validateAction`.  A parse failure inside
`SqlPolicy.validate` propagates: there is no catch here. -/
def PolicyEngine.validateAction (sqlCfg : SqlPolicyConfig) (parse : SqlParse)
    (action : PlanAction) : Except String PolicyResult := do
  if action.tool == "sql.query" then
    match lookupArg action.args "sql" with
    | some (.str sql) =>
      let result ← SqlPolicy.validate sqlCfg parse sql
      if result.valid then
        return { action, approved := true,
                 sanitizedArgs := some (setArg action.args "sql" (.str result.sanitizedSql)),
                 errors := [] }
      else
        return { action, approved := false, sanitizedArgs := none, errors := result.errors }
    | _ =>
      return { action, approved := false, sanitizedArgs := none,
               errors := ["sql.query requires a \"sql\" argument of type string."] }
  else
    return { action, approved := true, sanitizedArgs := some action.args, errors := [] }

/-- `PolicyEngine.validatePlan`: tool gate first (whole-plan throw), then
per-action validation; `actions.map` aborts on the first thrown error. -/
def PolicyEngine.validatePlan (sqlCfg : SqlPolicyConfig) (gateCfg : ToolGateConfig)
    (parse : SqlParse) (plan : Plan) : Except String (List PolicyResult) := do
  let _ ← ToolGate.validateActions gateCfg plan.actions
  plan.actions.mapM (PolicyEngine.validateAction sqlCfg parse)

/-! ## Verifier (`packages/orchestrator/src/verifier.ts`) -/

/-- One execution result: the audit record plus the result when successful. -/
structure ToolExecutionResult where
  toolCall : ToolCall
  toolResult : Option ToolResult
deriving Repr, Inhabited

/-- Did this execution succeed with a result (`status === 'success' &&
toolResult !== null`)? -/
def isSuccessful (r : ToolExecutionResult) : Bool :=
  r.toolCall.status == .success && r.toolResult.isSome

/-- Did this execution fail (`status === 'error' || toolResult === null`)? -/
def isFailed (r : ToolExecutionResult) : Bool :=
  r.toolCall.status == .error || r.toolResult.isNone

/-- `hasData` for a successful result: `rowCount` is a number greater than
zero. -/
def resultHasRows (tr : ToolResult) : Bool :=
  match tr.rowCount with
  | some n => n > 0
  | none => false

/-- The coverage check (check 1 of `verify`). -/
def Verifier.coverageCheck (successCount totalCount : Nat) : EvidenceCheck :=
  { claim := "At least one tool execution succeeded"
    supported := successCount > 0
    evidenceId := none, evidenceType := none
    reason := some (if successCount > 0 then
        toString successCount ++ " tool(s) succeeded"
      else "All " ++ toString totalCount ++ " tool(s) failed") }

/-- The per-successful-result check (check 2 of `verify`). -/
def Verifier.successCheck (r : ToolExecutionResult) : EvidenceCheck :=
  let tr := r.toolResult.getD default
  let hasData := resultHasRows tr
  { claim := "Tool \"" ++ r.toolCall.toolName ++ "\" returned data"
    supported := hasData || tr.data.length > 0
    evidenceId := some tr.id, evidenceType := some .tool_result
    reason := some (if hasData then toString (tr.rowCount.getD 0) ++ " row(s) returned"
      else "No rows returned") }

/-- The per-failed-result check (check 3 of `verify`). -/
def Verifier.failedCheck (r : ToolExecutionResult) : EvidenceCheck :=
  { claim := "Tool \"" ++ r.toolCall.toolName ++ "\" executed successfully"
    supported := false, evidenceId := none, evidenceType := none
    reason := some (r.toolCall.errorMessage.getD "Unknown error") }

/-- `Verifier.verify`: pure report construction. -/
def Verifier.verify (results : List ToolExecutionResult) (_userMessage : String) :
    VerifierReport :=
  let successfulResults := results.filter isSuccessful
  let failedResults := results.filter isFailed
  let successChecks := successfulResults.map Verifier.successCheck
  let noDataSuggestions := (successfulResults.filter fun r =>
      !resultHasRows (r.toolResult.getD default)).map fun r =>
    "Tool \"" ++ r.toolCall.toolName ++
      "\" returned no data. Consider refining the query or checking data availability."
  let failedChecks := failedResults.map Verifier.failedCheck
  let failedSuggestions := failedResults.map fun r =>
    "Tool \"" ++ r.toolCall.toolName ++ "\" failed: " ++
      (r.toolCall.errorMessage.getD "null") ++ ". Check tool configuration."
  let checks := Verifier.coverageCheck successfulResults.length results.length ::
    successChecks ++ failedChecks
  let approved := successfulResults.length > 0 &&
    checks.all (fun c => c.supported || c.evidenceType == none)
  let summary :=
    if approved then none
    else some ("Cannot produce a grounded answer. " ++ toString failedResults.length ++
      " tool(s) failed, " ++
      toString (successfulResults.filter
        (fun r => ((r.toolResult.map (fun tr => tr.rowCount.getD 0)).getD 0) == 0)).length ++
      " returned no data.")
  { approved, checks, summary, suggestedActions := some (noDataSuggestions ++ failedSuggestions) }

/-- `Verifier.verifyOrThrow`: only hard-blocks when every tool failed and at
least one was attempted. -/
def Verifier.verifyOrThrow (results : List ToolExecutionResult) (userMessage : String) :
    Except String VerifierReport :=
  let report := Verifier.verify results userMessage
  let allFailed := results.all isFailed
  if allFailed && results.length > 0 then
    .error (report.summary.getD "Evidence insufficient")
  else .ok report

/-! ## LLM adapter contract (`packages/shared/src/types.ts`)

The adapter is opaque and possibly non-deterministic; `generatePlan` receives
the retry attempt number so that distinct attempts may differ.  A thrown
rejection is `Except.error`; `streamAnswer` yields a token list and, when the
generator throws mid-stream, the error after them. -/

structure LlmPlanRequest where
  userMessage : String
  systemContext : String
  allowedTools : List String
  temperature : Option Rat
deriving Repr

structure LlmAnswerRequest where
  userMessage : String
  toolResults : List ToolResult
  verifierReport : VerifierReport
  systemContext : String
deriving Repr

structure LlmAdapter where
  generatePlan : Nat → LlmPlanRequest → Except String RawPlan
  generateAnswer : LlmAnswerRequest → Except String Answer
  streamAnswer : LlmAnswerRequest → List String × Option String

/-! ## Planner (`packages/orchestrator/src/planner.ts`) -/

/-- Planner configuration. -/
structure PlannerConfig where
  llm : LlmAdapter
  temperature : Rat
  maxRetries : Nat

/-- The retry loop of `Planner.plan`: attempts `0 .. maxRetries`; validation
failures and adapter throws are recorded and retried; exhaustion throws
`PlannerError` with the last error message. -/
def Planner.loop (cfg : PlannerConfig) (req : LlmPlanRequest) :
    Nat → Nat → Option String → Except String Plan
  | _, 0, lastError =>
    .error ("Planner failed after " ++ toString (cfg.maxRetries + 1) ++ " attempts: " ++
      lastError.getD "undefined")
  | attempt, fuel + 1, _ =>
    match cfg.llm.generatePlan attempt req with
    | .error e => Planner.loop cfg req (attempt + 1) fuel (some e)
    | .ok rawPlan =>
      match PlanSchema.safeParse rawPlan with
      | .ok parsed => .ok parsed
      | .error issues =>
        Planner.loop cfg req (attempt + 1) fuel
          (some ("Plan validation failed (attempt " ++ toString (attempt + 1) ++ "): " ++
            String.intercalate "; " issues))

/-- `Planner.plan`. -/
def Planner.plan (cfg : PlannerConfig) (userMessage systemContext : String)
    (allowedTools : List String) : Except String Plan :=
  Planner.loop cfg
    { userMessage, systemContext, allowedTools, temperature := some cfg.temperature }
    0 (cfg.maxRetries + 1) none

/-! ## Tool Runtime (`packages/orchestrator/src/tool-runtime.ts`) -/

/-- A SQL connector's structured result. -/
structure SqlQueryResult where
  columns : List String
  rows : List JsRecord
  rowCount : Int
  checksum : String
  truncated : Bool
deriving Repr

/-- Parameters handed to `SqlConnector.query`. -/
structure SqlQueryParams where
  sql : String
  sourceId : String
  workspaceId : String
  maxRows : Option Int
deriving Repr

/-- Parameters handed to `RagConnector.search`. -/
structure RagSearchParams where
  query : String
  workspaceId : String
  topK : Option Int
deriving Repr

/-- The registered connectors.  Each connector call is indexed by the dispatch
counter so that distinct calls may behave differently; `Except.error` covers
connector failures and the timeout race, whose outcome is external. -/
structure ToolConnectors where
  sql : Option (Nat → SqlQueryParams → Except String SqlQueryResult)
  rag : Option (Nat → RagSearchParams → Except String (List Json))

/-- External effects of the runtime: UUIDs, wall-clock timestamps, durations
and the SHA-256 hex digest. -/
structure RuntimeEnv where
  callId : Nat → String
  resultId : Nat → String
  startedAt : Nat → String
  finishedAt : Nat → String
  durationMs : Nat → Int
  sha256hex : String → String

/-- Pipeline context (one request). -/
structure PipelineContext where
  workspaceId : String
  threadId : String
  messageId : String
  userMessage : String
  allowedSources : List String
deriving Repr

/-- What `dispatch` returns to `executeOne`. -/
structure DispatchPayload where
  data : JsRecord
  rowCount : Option Int
  previewRows : Option (List JsRecord)
deriving Repr

/-- Read a string argument the way the TS `as string` cast plus `??` chain
does for present string values (non-string junk is not exercised by any run
the claims quantify over). -/
def argString (args : JsRecord) (key : String) : Option String :=
  match lookupArg args key with
  | some (.str s) => some s
  | _ => none

/-- Ditto for `as number`. -/
def argNumber (args : JsRecord) (key : String) : Option Int :=
  match lookupArg args key with
  | some (.num n) => some n
  | _ => none

/-- `ToolRuntime.dispatch`. -/
def ToolRuntime.dispatch (conns : ToolConnectors) (i : Nat) (context : PipelineContext)
    (toolName : String) (args : JsRecord) : Except String DispatchPayload :=
  if toolName == "sql.query" then
    match conns.sql with
    | none => .error "SQL connector not configured."
    | some query =>
      match query i
        { sql := (argString args "sql").getD ""
          sourceId := (argString args "sourceId").getD (context.allowedSources.headD "")
          workspaceId := context.workspaceId
          maxRows := some ((argNumber args "maxRows").getD 200) } with
      | .error e => .error e
      | .ok result =>
        .ok { data := [("columns", .arr (result.columns.map .str)),
                       ("rows", .arr (result.rows.map .obj)),
                       ("rowCount", .num result.rowCount),
                       ("checksum", .str result.checksum),
                       ("truncated", .bool result.truncated)]
              rowCount := some result.rowCount
              previewRows := some (result.rows.take 10) }
  else if toolName == "rag.search" then
    match conns.rag with
    | none => .error "RAG connector not configured."
    | some search =>
      match search i
        { query := (argString args "query").getD ""
          workspaceId := context.workspaceId
          topK := some ((argNumber args "topK").getD 8) } with
      | .error e => .error e
      | .ok chunks =>
        .ok { data := [("chunks", .arr chunks)]
              rowCount := some chunks.length
              previewRows := none }
  else .error ("Unknown tool: " ++ toolName)

/-- `ToolRuntime.executeOne`: builds the audit record, dispatches, and never
raises. -/
def ToolRuntime.executeOne (conns : ToolConnectors) (env : RuntimeEnv) (i : Nat)
    (context : PipelineContext) (action : PlanAction) (args : JsRecord) :
    ToolExecutionResult :=
  let toolCallId := env.callId i
  let started := env.startedAt i
  let base : ToolCall :=
    { id := toolCallId, threadId := context.threadId, workspaceId := context.workspaceId
      messageId := context.messageId, toolName := action.tool, toolArgs := args
      status := .running, startedAt := started, finishedAt := none, durationMs := none
      errorMessage := none, createdAt := started }
  match ToolRuntime.dispatch conns i context action.tool args with
  | .ok payload =>
    let finished := env.finishedAt i
    let checksum := takeFirst 16 (env.sha256hex (Json.stringify (.obj payload.data)))
    let call := { base with status := ToolStatus.success, finishedAt := some finished, durationMs := some (env.durationMs i) }
    let res : ToolResult :=
      { id := env.resultId i, toolCallId := toolCallId, threadId := context.threadId
        workspaceId := context.workspaceId, data := payload.data
        rowCount := payload.rowCount, checksum := some checksum
        previewRows := payload.previewRows, createdAt := some finished }
    { toolCall := call, toolResult := some res }
  | .error e =>
    let call := { base with status := ToolStatus.error, finishedAt := some (env.finishedAt i), durationMs := some (env.durationMs i), errorMessage := some e }
    { toolCall := call, toolResult := none }

/-- `ToolRuntime.executeActions`: sequential execution; `startIdx` numbers the
dispatches across the run. -/
def ToolRuntime.executeActions (conns : ToolConnectors) (env : RuntimeEnv) (startIdx : Nat)
    (actions : List (PlanAction × Option JsRecord)) (context : PipelineContext) :
    List ToolExecutionResult :=
  actions.enum.map fun p =>
    ToolRuntime.executeOne conns env (startIdx + p.1) context p.2.1 (p.2.2.getD p.2.1.args)

/-! ## Answer Generator (`packages/orchestrator/src/answer.ts`) -/

/-- `AnswerGenerator.generate`: delegates to the adapter; the returned Answer
is not validated further. -/
def AnswerGenerator.generate (llm : LlmAdapter) (toolResults : List ToolResult)
    (verifierReport : VerifierReport) (userMessage systemContext : String) :
    Except String Answer :=
  llm.generateAnswer { userMessage, toolResults, verifierReport, systemContext }

/-- `AnswerGenerator.stream`: delegates to the adapter's token stream. -/
def AnswerGenerator.stream (llm : LlmAdapter) (toolResults : List ToolResult)
    (verifierReport : VerifierReport) (userMessage systemContext : String) :
    List String × Option String :=
  llm.streamAnswer { userMessage, toolResults, verifierReport, systemContext }

/-! ## Mock LLM adapter (`packages/connectors/src/llm/mock-llm-adapter.ts`),
answer side -/

/-- `MockLlmAdapter.generateAnswer`: builds the answer purely from the tool
results passed in, citing `tr.id` for each. -/
def MockLlmAdapter.generateAnswer (params : LlmAnswerRequest) : Answer :=
  let toolResults := params.toolResults
  if toolResults.length == 0 then
    { content := "I wasn't able to retrieve any data to answer your question. Please check that data sources are configured and try again."
      citations := []
      followUps := some [{ text := "Configure a data source in the Sources page.", planHint := none }] }
  else
    let citations := toolResults.enum.map fun p =>
      ({ index := (p.1 : Int) + 1, evidenceId := p.2.id, evidenceType := .tool_result
         label := some ("Query result (" ++ toString (p.2.rowCount.getD 0) ++ " rows)") } : Citation)
    let citationParts := toolResults.enum.map fun p =>
      let citIdx := p.1 + 1
      let rowCount := p.2.rowCount.getD 0
      match p.2.previewRows with
      | some preview =>
        if preview.length > 0 then
          let cols := (preview.headD []).map (·.1)
          let tableJson := Json.stringify (.obj
            [("columns", .arr (cols.map .str)), ("rows", .arr ((preview.take 10).map .obj))])
          "Based on the query results [" ++ toString citIdx ++ "], I found **" ++
            toString rowCount ++ " row(s)**:\n\n<!-- data-table:" ++ tableJson ++ " -->"
        else
          "Based on the query results [" ++ toString citIdx ++ "], **" ++
            toString rowCount ++ " row(s)** were returned."
      | none =>
        "Based on the query results [" ++ toString citIdx ++ "], **" ++
          toString rowCount ++ " row(s)** were returned."
    { content := "Here are the results for your question: \"" ++ params.userMessage ++
        "\"\n\n" ++ String.intercalate "\n\n" citationParts
      citations := citations, followUps := none }

/-! ## Pipeline (`packages/orchestrator/src/pipeline.ts`) -/

/-- A stage name carried by `status` events. -/
inductive Stage where
  | planning | policy | toolsRunning | verifying | answering
deriving Repr, DecidableEq

/-- A stream event with its payload (`SseEvent`). -/
inductive SseEvent where
  | meta (threadId messageId : String)
  | status (stage : Stage)
  | plan (p : Plan)
  | toolCallStart (tool : String) (args : JsRecord)
  | toolCallEnd (tool : String) (status : ToolStatus) (durationMs : Option Int)
      (rowCount : Int) (error : Option String)
  | verification (report : VerifierReport)
  | token (t : String)
  | answer (a : Answer)
  | error (message : String) (stage : Option String)
  | done
deriving Repr, Inhabited

/-- `PipelineConfig`: the optional fields of the constructor argument.  The
connector objects only matter through their presence and call behaviour,
bundled in `ToolConnectors`. -/
structure PipelineConfig where
  llm : LlmAdapter
  conns : ToolConnectors
  maxRows : Option Nat
  allowedTables : Option (List String)
  allowedTools : Option (List String)
  toolTimeoutMs : Option Int
  plannerTemperature : Option Rat
  plannerMaxRetries : Option Nat

/-- The SQL policy configuration the `Pipeline` constructor builds: note the
explicit `forbiddenFunctions: []` and `allowedColumns: []`. -/
def Pipeline.sqlPolicyConfig (config : PipelineConfig) : SqlPolicyConfig :=
  SqlPolicy.configOf
    { maxRows := some (config.maxRows.getD 200)
      allowedTables := some (config.allowedTables.getD [])
      allowedColumns := some []
      forbiddenFunctions := some [] }

/-- The tool gate configuration the `Pipeline` constructor builds
(`maxToolCallsPerPlan` is left to its default). -/
def Pipeline.toolGateConfig (config : PipelineConfig) : ToolGateConfig :=
  ToolGate.configOf
    { allowedTools := some (config.allowedTools.getD ["sql.query", "rag.search"])
      toolTimeoutMs := some (config.toolTimeoutMs.getD 30000)
      maxToolCallsPerPlan := none }

/-- `buildSystemContext`. -/
def Pipeline.buildSystemContext (context : PipelineContext) : String :=
  String.intercalate "\n"
    ["You are the CRM AI Studio assistant.",
     "Workspace: " ++ context.workspaceId,
     "Thread: " ++ context.threadId,
     "Rules:",
     "- Answer ONLY from tool results and evidence.",
     "- Every factual claim must have a citation.",
     "- Never invent numbers, totals, or query results.",
     "- If data is insufficient, say so clearly."]

/-- The planner configuration the `Pipeline` constructor builds. -/
def Pipeline.plannerConfig (config : PipelineConfig) : PlannerConfig :=
  { llm := config.llm
    temperature := config.plannerTemperature.getD (1 / 10)
    maxRetries := config.plannerMaxRetries.getD 2 }

/-- The full result of a non-streaming run. -/
structure PipelineResult where
  plan : Plan
  toolCalls : List ToolCall
  toolResults : List ToolResult
  verifierReport : VerifierReport
  answer : Answer
deriving Repr

/-- `Pipeline.run` (non-streaming).  `env` carries the runtime oracles. -/
def Pipeline.run (config : PipelineConfig) (env : RuntimeEnv) (parse : SqlParse)
    (context : PipelineContext) : Except String PipelineResult := do
  let systemContext := Pipeline.buildSystemContext context
  -- Stage 1: Plan
  let plan ← Planner.plan (Pipeline.plannerConfig config) context.userMessage systemContext
    (config.allowedTools.getD ["sql.query", "rag.search"])
  if plan.needsClarification then
    return { plan
             toolCalls := [], toolResults := []
             verifierReport := { approved := false, checks := [],
                                 summary := plan.clarificationQuestion, suggestedActions := none }
             answer := { content := plan.clarificationQuestion.getD "Could you clarify your question?",
                         citations := [], followUps := none } }
  -- Stage 2: Policy
  let policyResults ← PolicyEngine.validatePlan (Pipeline.sqlPolicyConfig config)
    (Pipeline.toolGateConfig config) parse plan
  let blockedActions := policyResults.filter (fun r => !r.approved)
  if blockedActions.length == policyResults.length then
    let errors := (blockedActions.map (·.errors)).flatten
    return { plan
             toolCalls := [], toolResults := []
             verifierReport := { approved := false, checks := [],
                                 summary := some ("Policy blocked: " ++ String.intercalate "; " errors),
                                 suggestedActions := none }
             answer := { content := "Your query was blocked by the safety policy: " ++
                           String.intercalate "; " errors ++ ". Please adjust your question.",
                         citations := [], followUps := none } }
  -- Stage 3: Tool execution
  let approvedActions := (policyResults.filter (·.approved)).map
    (fun r => (r.action, r.sanitizedArgs))
  let executionResults := ToolRuntime.executeActions config.conns env 0 approvedActions context
  let toolCalls := executionResults.map (·.toolCall)
  let toolResults := executionResults.filterMap (·.toolResult)
  -- Stage 4: Verify
  let verifierReport := Verifier.verify executionResults context.userMessage
  -- Stage 5: Answer
  let answer ← AnswerGenerator.generate config.llm toolResults verifierReport
    context.userMessage systemContext
  return { plan, toolCalls, toolResults, verifierReport, answer }

/-- The streaming tool loop: one `tool_call_start` / `tool_call_end` pair per
approved action, accumulating execution results. -/
def Pipeline.streamToolLoop (conns : ToolConnectors) (env : RuntimeEnv)
    (context : PipelineContext) :
    Nat → List PolicyResult → List SseEvent × List ToolExecutionResult
  | _, [] => ([], [])
  | i, policyResult :: rest =>
    let args := policyResult.sanitizedArgs.getD policyResult.action.args
    let result := ToolRuntime.executeOne conns env i context policyResult.action args
    let endEvent := SseEvent.toolCallEnd result.toolCall.toolName result.toolCall.status
      result.toolCall.durationMs
      ((result.toolResult.map (fun tr => tr.rowCount.getD 0)).getD 0)
      result.toolCall.errorMessage
    let (events, results) := Pipeline.streamToolLoop conns env context (i + 1) rest
    (SseEvent.toolCallStart policyResult.action.tool args :: endEvent :: events,
     result :: results)

/-- The answering-stage request the streaming pipeline builds after the tool
loop, as a function of the policy results. -/
def Pipeline.streamAnswerReq (config : PipelineConfig) (env : RuntimeEnv)
    (context : PipelineContext) (prs : List PolicyResult) : LlmAnswerRequest :=
  let executionResults :=
    (Pipeline.streamToolLoop config.conns env context 0
      (prs.filter (fun r => r.approved))).2
  { userMessage := context.userMessage
    toolResults := executionResults.filterMap (fun r => r.toolResult)
    verifierReport := Verifier.verify executionResults context.userMessage
    systemContext := Pipeline.buildSystemContext context }

/-- The answering phase of the stream: the yielded tokens, then `answer` and
`done` — or `error` then `done` when the adapter throws while streaming or
generating. -/
def Pipeline.streamAnswerPhase (llm : LlmAdapter) (req : LlmAnswerRequest) : List SseEvent :=
  ((llm.streamAnswer req).1.map SseEvent.token) ++
  (match (llm.streamAnswer req).2 with
   | some e => [SseEvent.error e (some "answering"), SseEvent.done]
   | none =>
     match llm.generateAnswer req with
     | .ok a => [SseEvent.answer a, SseEvent.done]
     | .error e => [SseEvent.error e (some "answering"), SseEvent.done])

/-- `Pipeline.stream`: the events the generator yields, in order. -/
def Pipeline.stream (config : PipelineConfig) (env : RuntimeEnv) (parse : SqlParse)
    (context : PipelineContext) : List SseEvent :=
  let systemContext := Pipeline.buildSystemContext context
  SseEvent.status .planning ::
  match Planner.plan (Pipeline.plannerConfig config) context.userMessage systemContext
    (config.allowedTools.getD ["sql.query", "rag.search"]) with
  | .error e => [.error e (some "planning"), .done]
  | .ok plan =>
    SseEvent.plan plan ::
    if plan.needsClarification then
      [.answer { content := plan.clarificationQuestion.getD "Could you clarify your question?",
                 citations := [], followUps := none }, .done]
    else
      SseEvent.status .policy ::
      match PolicyEngine.validatePlan (Pipeline.sqlPolicyConfig config)
        (Pipeline.toolGateConfig config) parse plan with
      | .error e => [.error e (some "policy"), .done]
      | .ok policyResults =>
        let approvedActions := policyResults.filter (·.approved)
        if approvedActions.length == 0 then
          [.error ("Policy blocked: " ++
              String.intercalate "; " ((policyResults.map (·.errors)).flatten)) (some "policy"),
           .done]
        else
          SseEvent.status .toolsRunning ::
          let (toolEvents, executionResults) :=
            Pipeline.streamToolLoop config.conns env context 0 approvedActions
          toolEvents ++
          SseEvent.status .verifying ::
          SseEvent.verification (Verifier.verify executionResults context.userMessage) ::
          SseEvent.status .answering ::
          Pipeline.streamAnswerPhase config.llm
            (Pipeline.streamAnswerReq config env context policyResults)

/-- The SSE endpoint (`apps/studio/server/api/chat/stream.post.ts`): sends
`meta` first, then forwards every pipeline event. -/
def chatStreamEvents (config : PipelineConfig) (env : RuntimeEnv) (parse : SqlParse)
    (context : PipelineContext) : List SseEvent :=
  SseEvent.meta context.threadId context.messageId ::
    Pipeline.stream config env parse context


/-! ## Event tags and orderings (§5 of the specification) -/

/-- The bare tag of an event; `status` keeps its stage, since the specified
order distinguishes the stages. -/
inductive Tag where
  | meta
  | status (stage : Stage)
  | plan
  | toolCallStart
  | toolCallEnd
  | verification
  | token
  | answer
  | error
  | done
deriving Repr, DecidableEq

/-- Tag of an event. -/
def SseEvent.tag : SseEvent → Tag
  | .meta _ _ => .meta
  | .status s => .status s
  | .plan _ => .plan
  | .toolCallStart _ _ => .toolCallStart
  | .toolCallEnd _ _ _ _ _ => .toolCallEnd
  | .verification _ => .verification
  | .token _ => .token
  | .answer _ => .answer
  | .error _ _ => .error
  | .done => .done

/-- Tags of a stream. -/
def tagsOf (events : List SseEvent) : List Tag :=
  events.map SseEvent.tag

/-- Is an event an `error` event? -/
def SseEvent.isErrorEvent : SseEvent → Bool
  | .error _ _ => true
  | _ => false

/-- Is an event a `verification` event whose report is not approved? -/
def SseEvent.isRejectedVerification : SseEvent → Bool
  | .verification r => !r.approved
  | _ => false

/-!
The order claimed in the specification, read literally:
`meta, status(planning), plan, status(policy),
 [status(toolsRunning), tool_call_start, tool_call_end]*,
 status(verifying), verification, status(answering), token*, answer, done`,
with prefixes of this order (closed by `error, done`) on failure paths.
-/

/-- Tail of the claimed order: `token* answer done`. -/
def claimedTokensEnd : List Tag → Bool
  | .token :: rest => claimedTokensEnd rest
  | [.answer, .done] => true
  | _ => false

/-- Middle of the claimed order: the starred three-event group, then
`status(verifying), verification, status(answering)` and the tail. -/
def claimedGroups : List Tag → Bool
  | .status .toolsRunning :: .toolCallStart :: .toolCallEnd :: rest => claimedGroups rest
  | .status .verifying :: .verification :: .status .answering :: rest => claimedTokensEnd rest
  | _ => false

/-- A complete word of the claimed order. -/
def claimedWord : List Tag → Bool
  | .meta :: .status .planning :: .plan :: .status .policy :: rest => claimedGroups rest
  | _ => false

/-- Is the tag list a (possibly complete) prefix of a word of the claimed
order? -/
def claimedTokensEndPre : List Tag → Bool
  | [] => true
  | [.answer] => true
  | [.answer, .done] => true
  | .token :: rest => claimedTokensEndPre rest
  | _ => false

def claimedGroupsPre : List Tag → Bool
  | [] => true
  | [.status .toolsRunning] => true
  | [.status .toolsRunning, .toolCallStart] => true
  | .status .toolsRunning :: .toolCallStart :: .toolCallEnd :: rest => claimedGroupsPre rest
  | [.status .verifying] => true
  | [.status .verifying, .verification] => true
  | .status .verifying :: .verification :: .status .answering :: rest => claimedTokensEndPre rest
  | _ => false

def claimedWordPre : List Tag → Bool
  | [] => true
  | [.meta] => true
  | [.meta, .status .planning] => true
  | [.meta, .status .planning, .plan] => true
  | .meta :: .status .planning :: .plan :: .status .policy :: rest => claimedGroupsPre rest
  | _ => false

/-- The claimed ordering property for one stream: a full word of the claimed
order, or a prefix of it closed by `error, done` on a failure path. -/
def claimedOrderOk (tags : List Tag) : Bool :=
  claimedWord tags ||
    (match tags.reverse with
     | .done :: .error :: restRev => claimedWordPre restRev.reverse
     | _ => false)

/-!
The order the code actually emits: `status(toolsRunning)` appears once before
the whole sequence of pairs, clarification short-circuits after `plan`, and
failure paths close with `error, done`.
-/

/-- Tail of the emitted order: `token*` then `answer` or `error`, then
`done`. -/
def emittedTokensEnd : List Tag → Bool
  | .token :: rest => emittedTokensEnd rest
  | [.answer, .done] => true
  | [.error, .done] => true
  | _ => false

/-- After the pair sequence: more pairs, or the closing
`status(verifying), verification, status(answering)` and the tail. -/
def emittedAfterPairs : List Tag → Bool
  | .toolCallStart :: .toolCallEnd :: rest => emittedAfterPairs rest
  | .status .verifying :: .verification :: .status .answering :: rest => emittedTokensEnd rest
  | _ => false

/-- At least one `tool_call_start`/`tool_call_end` pair, then the closing
sequence. -/
def emittedPairsOnePlus : List Tag → Bool
  | .toolCallStart :: .toolCallEnd :: rest => emittedAfterPairs rest
  | _ => false

/-- The complete emitted order for one request stream. -/
def emittedOrderOk (tags : List Tag) : Bool :=
  match tags with
  | .meta :: .status .planning :: rest =>
    match rest with
    | [.error, .done] => true
    | .plan :: rest2 =>
      match rest2 with
      | [.answer, .done] => true
      | .status .policy :: rest3 =>
        match rest3 with
        | [.error, .done] => true
        | .status .toolsRunning :: rest4 => emittedPairsOnePlus rest4
        | _ => false
      | _ => false
    | _ => false
  | _ => false

/-- The tag sequence of `n` tool-call start/end pairs. -/
def pairTags : Nat → List Tag
  | 0 => []
  | n + 1 => Tag.toolCallStart :: Tag.toolCallEnd :: pairTags n

/-- Is the last tag `done`? -/
def endsWithDone : List Tag → Bool
  | [] => false
  | [t] => t == Tag.done
  | _ :: rest => endsWithDone rest

/-! ## Concrete fixtures used by witnesses and counterexamples -/

/-- Whether an `Except` is a success. -/
def exceptOk {ε α : Type} : Except ε α → Bool
  | .ok _ => true
  | .error _ => false

instance {ε α : Type} [DecidableEq ε] [DecidableEq α] : DecidableEq (Except ε α) := fun a b =>
  match a, b with
  | .ok x, .ok y =>
    match decEq x y with
    | isTrue h => isTrue (congrArg Except.ok h)
    | isFalse h => isFalse (fun hc => h (Except.ok.inj hc))
  | .error x, .error y =>
    match decEq x y with
    | isTrue h => isTrue (congrArg Except.error h)
    | isFalse h => isFalse (fun hc => h (Except.error.inj hc))
  | .ok _, .error _ => isFalse (fun hc => Except.noConfusion hc)
  | .error _, .ok _ => isFalse (fun hc => Except.noConfusion hc)

/-- A deterministic runtime oracle for concrete runs. -/
def testEnv : RuntimeEnv :=
  { callId := fun i => "call-" ++ toString i
    resultId := fun i => "res-" ++ toString i
    startedAt := fun _ => "2026-01-01T00:00:00.000Z"
    finishedAt := fun _ => "2026-01-01T00:00:00.005Z"
    durationMs := fun _ => 5
    sha256hex := fun _ => "0123456789abcdef0123456789abcdef" }

/-- A concrete tool result, as the runtime builds them. -/
def trFix : ToolResult :=
  { id := "res-0", toolCallId := "call-0", threadId := "th", workspaceId := "w"
    data := [("rowCount", .num 1)], rowCount := some 1
    checksum := some "0123456789abcdef", previewRows := none
    createdAt := some "2026-01-01T00:00:00.005Z" }

/-- A concrete successful tool call. -/
def tcFixOk : ToolCall :=
  { id := "call-0", threadId := "th", workspaceId := "w", messageId := "m"
    toolName := "sql.query", toolArgs := [("sql", .str "SELECT a FROM t")]
    status := .success, startedAt := "2026-01-01T00:00:00.000Z"
    finishedAt := some "2026-01-01T00:00:00.005Z", durationMs := some 5
    errorMessage := none, createdAt := "2026-01-01T00:00:00.000Z" }

/-- A concrete failed tool call. -/
def tcFixErr : ToolCall :=
  { tcFixOk with status := ToolStatus.error, errorMessage := some "SQL query failed: connection refused" }

/-- A concrete pipeline context. -/
def ctxFix : PipelineContext :=
  { workspaceId := "w", threadId := "th", messageId := "m"
    userMessage := "How many rows are in t?", allowedSources := [] }

/-- A raw clarification plan with no actions. -/
def rawClarify : RawPlan :=
  { intent := "clarify", actions := [], constraints := none
    needsClarification := some true, clarificationQuestion := some "Which workspace?" }

/-- An adversarial adapter answer citing evidence that no tool produced. -/
def badAnswer : Answer :=
  { content := "The count is 42."
    citations := [{ index := 1, evidenceId := "bogus-evidence", evidenceType := .tool_result, label := none }]
    followUps := none }

/-- An adversarial LLM adapter. -/
def badLlm : LlmAdapter :=
  { generatePlan := fun _ _ => .error "unavailable"
    generateAnswer := fun _ => .ok badAnswer
    streamAnswer := fun _ => ([], none) }

/-- A concrete answer request with one tool result. -/
def reqFix : LlmAnswerRequest :=
  { userMessage := "q", toolResults := [trFix]
    verifierReport := { approved := true, checks := [], summary := none, suggestedActions := none }
    systemContext := "sys" }

/-- No connectors registered. -/
def noConns : ToolConnectors := { sql := none, rag := none }

/-- A default pipeline construction (all optional configuration left unset,
as the Studio factory does apart from its runtime numbers). -/
def defaultPipelineConfig : PipelineConfig :=
  { llm := badLlm, conns := noConns, maxRows := none, allowedTables := none
    allowedTools := none, toolTimeoutMs := none, plannerTemperature := none
    plannerMaxRetries := none }

/-- Parser oracle for `SELECT pg_sleep(5) FROM t`: a single SELECT over `t`
(the function call sits in the projection list, which the policy's
`ParsedSelect` view does not inspect). -/
def parsePgSleep : SqlParse := fun s =>
  if s = "SELECT pg_sleep(5) FROM t" then .ok [.select (.mk [.table (some "t")] none)]
  else .error "unexpected input"

/-- Parser oracle for `SELECT id FROM users LIMIT 201`. -/
def parse201 : SqlParse := fun s =>
  if s = "SELECT id FROM users LIMIT 201" then
    .ok [.select (.mk [.table (some "users")] (some (.integer 201)))]
  else .error "unexpected input"

/-- Parser oracle for `SELECT id FROM users LIMIT 0`. -/
def parseLim0 : SqlParse := fun s =>
  if s = "SELECT id FROM users LIMIT 0" then
    .ok [.select (.mk [.table (some "users")] (some (.integer 0)))]
  else .error "unexpected input"

/-- Parser oracle for `SELECT * FROM (SELECT * FROM t LIMIT 5) s`: the LIMIT
sits inside the sub-select; the outer statement has none. -/
def parseSubLimit : SqlParse := fun s =>
  if s = "SELECT * FROM (SELECT * FROM t LIMIT 5) s" then
    .ok [.select (.mk [.sub (.mk [.table (some "t")] (some (.integer 5)))] none)]
  else .error "unexpected input"

/-- Parser oracle for the plain fixtures `SELECT a FROM t` / `SELECT b FROM t`
and failing on everything else. -/
def parseSelT : SqlParse := fun s =>
  if s = "SELECT a FROM t" || s = "SELECT b FROM t" then
    .ok [.select (.mk [.table (some "t")] none)]
  else .error "unexpected input"

/-- A plain SQL action over `t`. -/
def sqlActionA : PlanAction :=
  { tool := "sql.query", args := [("sql", .str "SELECT a FROM t")], reason := none }

/-- A second SQL action over `t`. -/
def sqlActionB : PlanAction :=
  { tool := "sql.query", args := [("sql", .str "SELECT b FROM t")], reason := none }

/-- A SQL action whose query carries a literal LIMIT inside a sub-select. -/
def sqlActionSub : PlanAction :=
  { tool := "sql.query", args := [("sql", .str "SELECT * FROM (SELECT * FROM t LIMIT 5) s")],
    reason := none }

/-- A SQL action whose query the parser oracle rejects. -/
def sqlActionBad : PlanAction :=
  { tool := "sql.query", args := [("sql", .str "SELEKT x FROM")], reason := none }

/-- A validated plan whose first action fails to parse and whose second is
fine. -/
def planBadFirst : Plan :=
  { intent := "mixed", actions := [sqlActionBad, sqlActionB], constraints := none,
    needsClarification := false, clarificationQuestion := none }

/-- Parser oracle seeing every input as a single UPDATE statement. -/
def parseUpdate : SqlParse := fun _ => .ok [.otherStmt "update"]

/-- A raw single-action plan. -/
def rawPlan1 : RawPlan :=
  { intent := "answer from t", actions := [sqlActionA], constraints := none
    needsClarification := none, clarificationQuestion := none }

/-- A raw two-action plan. -/
def rawPlan2 : RawPlan :=
  { intent := "answer from t twice", actions := [sqlActionA, sqlActionB], constraints := none
    needsClarification := none, clarificationQuestion := none }

/-- An adapter that always plans `raw`, answers via the mock builder, and
streams one token. -/
def planningLlm (raw : RawPlan) : LlmAdapter :=
  { generatePlan := fun _ _ => .ok raw
    generateAnswer := fun req => .ok (MockLlmAdapter.generateAnswer req)
    streamAnswer := fun _ => (["tok "], none) }

/-- A SQL connector oracle that always succeeds with one row. -/
def connsOk : ToolConnectors :=
  { sql := some (fun _ _ => .ok
      { columns := ["c"], rows := [[("c", .num 1)]], rowCount := 1
        checksum := "feedfacefeedface", truncated := false })
    rag := none }

/-- A SQL connector oracle that always fails. -/
def connsFail : ToolConnectors :=
  { sql := some (fun _ _ => .error "SQL query failed: connection refused")
    rag := none }

/-- Pipeline configuration for a two-action run whose tools succeed. -/
def configTwoActions : PipelineConfig :=
  { defaultPipelineConfig with llm := planningLlm rawPlan2, conns := connsOk }

/-- Pipeline configuration for a single-action run whose tool fails. -/
def configOneFailing : PipelineConfig :=
  { defaultPipelineConfig with llm := planningLlm rawPlan1, conns := connsFail }

/-! ## C7: the verifier's approval rule -/

theorem check_pass_iff (c : EvidenceCheck) :
    (c.supported || c.evidenceType == none) = true ↔
      (c.evidenceType ≠ none → c.supported = true) := by
  cases h : c.evidenceType <;> cases hs : c.supported <;> simp [h, hs]

theorem filter_length_pos_iff {α : Type} (p : α → Bool) (l : List α) :
    0 < (l.filter p).length ↔ ∃ a ∈ l, p a = true := by
  rw [List.length_pos_iff_ne_nil]
  constructor
  · intro h
    match hf : l.filter p with
    | [] => exact absurd hf h
    | b :: bs =>
      have hb : b ∈ l.filter p := by rw [hf]; exact List.mem_cons_self b bs
      exact ⟨b, (List.mem_filter.mp hb).1, (List.mem_filter.mp hb).2⟩
  · rintro ⟨a, ha, hpa⟩ hnil
    have : a ∈ l.filter p := List.mem_filter.mpr ⟨ha, hpa⟩
    rw [hnil] at this
    exact absurd this (List.not_mem_nil a)

/-- C7: `VerifierReport.approved` is true iff at least one execution succeeded
with a non-null tool result and every check that carries an `evidenceType` is
supported; a successful result's check is supported iff its `rowCount` is
positive or its `data` object is non-empty; and `summary` is populated exactly
when `approved` is false. -/
theorem C7_verifier_approval (results : List ToolExecutionResult) (msg : String) :
    ((Verifier.verify results msg).approved = true ↔
      ((∃ r ∈ results, isSuccessful r = true) ∧
        ∀ c ∈ (Verifier.verify results msg).checks, c.evidenceType ≠ none → c.supported = true)) ∧
    (∀ r : ToolExecutionResult,
      ((Verifier.successCheck r).supported = true ↔
        (resultHasRows (r.toolResult.getD default) = true ∨
          0 < (r.toolResult.getD default).data.length))) ∧
    (∀ r ∈ results, isSuccessful r = true →
      Verifier.successCheck r ∈ (Verifier.verify results msg).checks) ∧
    ((Verifier.verify results msg).summary = none ↔
      (Verifier.verify results msg).approved = true) := by
  refine ⟨?_, ?_, ?_, ?_⟩
  · have happ : (Verifier.verify results msg).approved =
        (decide (0 < (results.filter isSuccessful).length) &&
          (Verifier.verify results msg).checks.all
            (fun c => c.supported || c.evidenceType == none)) := rfl
    rw [happ, Bool.and_eq_true, decide_eq_true_eq, List.all_eq_true,
      filter_length_pos_iff]
    constructor
    · rintro ⟨h1, h2⟩
      exact ⟨h1, fun c hc => (check_pass_iff c).mp (h2 c hc)⟩
    · rintro ⟨h1, h2⟩
      exact ⟨h1, fun c hc => (check_pass_iff c).mpr (h2 c hc)⟩
  · intro r
    simp only [Verifier.successCheck, Bool.or_eq_true, decide_eq_true_eq]
  · intro r hr hs
    have hmem : r ∈ results.filter isSuccessful := List.mem_filter.mpr ⟨hr, hs⟩
    have : Verifier.successCheck r ∈ (results.filter isSuccessful).map Verifier.successCheck :=
      List.mem_map_of_mem _ hmem
    show Verifier.successCheck r ∈
      Verifier.coverageCheck (results.filter isSuccessful).length results.length ::
        ((results.filter isSuccessful).map Verifier.successCheck ++
          (results.filter isFailed).map Verifier.failedCheck)
    exact List.mem_cons_of_mem _ (List.mem_append_left _ this)
  · have hsum : (Verifier.verify results msg).summary =
        (if (Verifier.verify results msg).approved then none
         else some ("Cannot produce a grounded answer. " ++
           toString (results.filter isFailed).length ++ " tool(s) failed, " ++
           toString ((results.filter isSuccessful).filter
             (fun r => ((r.toolResult.map (fun tr => tr.rowCount.getD 0)).getD 0) == 0)).length ++
           " returned no data.")) := rfl
    rw [hsum]
    cases hA : (Verifier.verify results msg).approved <;> simp [hA]

/-- Witness for C7 at a concrete successful execution. -/
theorem C7_verifier_approval_witness :
    (Verifier.verify [⟨tcFixOk, some trFix⟩] "q").approved = true :=
  ((C7_verifier_approval [⟨tcFixOk, some trFix⟩] "q").1).mpr
    ⟨⟨⟨tcFixOk, some trFix⟩, List.mem_cons_self _ _, by decide⟩, by decide⟩

/-! ## C8: the Plan validator and the clarification invariant -/

/-- C8 counterexample: a raw plan with `needsClarification = true`,
`actions = ∅` and a `clarificationQuestion` present is rejected by the Plan
validator (`actions` carries an unconditional `.min(1)`), refuting the
claim's "is accepted". -/
theorem C8_counterexample :
    exceptOk (PlanSchema.safeParse rawClarify) = false := by decide

theorem isEmpty_append_cons {α : Type} (l1 l2 : List α) (a : α) :
    (l1 ++ a :: l2).isEmpty = false := by
  cases l1 <;> rfl

/-- C8 amended: the validator requires `|actions| ≥ 1` unconditionally, so a
plan with `actions = ∅` is rejected whatever `needsClarification` says, and
every validated Plan has at least one action (the actions are passed through
unchanged). -/
theorem issuesOf_not_empty_of_no_actions (raw : RawPlan) (hnil : raw.actions = []) :
    (PlanSchema.issuesOf raw).isEmpty = false := by
  unfold PlanSchema.issuesOf
  rw [hnil]
  rw [if_neg (by simp : ¬ (List.length ([] : List PlanAction) ≥ 1))]
  simp only [List.append_assoc, List.singleton_append, List.cons_append]
  rw [isEmpty_append_cons]

theorem C8_plan_validator (raw : RawPlan) :
    (∀ p, PlanSchema.safeParse raw = .ok p →
      1 ≤ p.actions.length ∧ p.actions = raw.actions) ∧
    (raw.actions = [] → ∃ issues, PlanSchema.safeParse raw = .error issues) := by
  constructor
  · intro p hp
    unfold PlanSchema.safeParse at hp
    split at hp
    case isTrue hEmpty =>
      simp only [Except.ok.injEq] at hp
      by_cases hnil : raw.actions = []
      · rw [issuesOf_not_empty_of_no_actions raw hnil] at hEmpty
        exact absurd hEmpty (by simp)
      · subst hp
        exact ⟨List.length_pos_iff_ne_nil.mpr hnil, rfl⟩
    case isFalse hEmpty => exact absurd hp (by simp)
  · intro hnil
    refine ⟨PlanSchema.issuesOf raw, ?_⟩
    unfold PlanSchema.safeParse
    rw [issuesOf_not_empty_of_no_actions raw hnil]
    rfl

/-! ## C1: answer citations versus the run's tool results -/

theorem snd_mem_of_mem_enumFrom {α : Type} :
    ∀ (l : List α) (n : Nat) (p : Nat × α), p ∈ List.enumFrom n l → p.2 ∈ l := by
  intro l
  induction l with
  | nil => intro n p hp; exact absurd hp (List.not_mem_nil p)
  | cons a t ih =>
    intro n p hp
    rcases List.mem_cons.mp hp with h | h
    · subst h; exact List.mem_cons_self a t
    · exact List.mem_cons_of_mem a (ih (n + 1) p h)

theorem snd_mem_of_mem_enum {α : Type} {l : List α} {p : Nat × α}
    (hp : p ∈ l.enum) : p.2 ∈ l :=
  snd_mem_of_mem_enumFrom l 0 p hp

/-- C1 counterexample: with a non-empty tool-result set, the Answer Generator
returns (does not reject) an adapter answer whose citation names an
`evidenceId` outside the run's tool results. -/
theorem C1_counterexample :
    AnswerGenerator.generate badLlm [trFix] (Verifier.verify [⟨tcFixOk, some trFix⟩] "q")
        "q" "sys" = .ok badAnswer ∧
      badAnswer.citations.any
        (fun c => !(([trFix].map (fun tr => tr.id)).contains c.evidenceId)) = true :=
  ⟨rfl, by decide⟩

/-- C1 amended: the Answer Generator forwards the adapter's answer without
any citation validation, so the citation-subset invariant holds exactly when
the adapter maintains it; the repository's `MockLlmAdapter` does maintain it,
citing only ids of the tool results passed in. -/
theorem C1_answer_citations :
    (∀ (llm : LlmAdapter) (toolResults : List ToolResult) (report : VerifierReport)
        (msg sys : String),
      AnswerGenerator.generate llm toolResults report msg sys =
        llm.generateAnswer { userMessage := msg, toolResults := toolResults,
                             verifierReport := report, systemContext := sys }) ∧
    (∀ (params : LlmAnswerRequest) (c : Citation),
      c ∈ (MockLlmAdapter.generateAnswer params).citations →
        c.evidenceId ∈ params.toolResults.map (fun tr => tr.id)) := by
  constructor
  · intro llm toolResults report msg sys
    rfl
  · intro params c hc
    simp only [MockLlmAdapter.generateAnswer] at hc
    split at hc
    · exact absurd hc (by simp)
    · simp only [List.mem_map] at hc
      obtain ⟨p, hp, hpc⟩ := hc
      subst hpc
      exact List.mem_map.mpr ⟨p.2, snd_mem_of_mem_enum hp, rfl⟩

/-- Witness for C1 at the concrete request. -/
theorem C1_answer_citations_witness :
    ({ index := 1, evidenceId := "res-0", evidenceType := .tool_result,
       label := some "Query result (1 rows)" } : Citation).evidenceId ∈
      reqFix.toolResults.map (fun tr => tr.id) :=
  C1_answer_citations.2 reqFix _ (by decide)

/-! ## The SQL gate on a single parsed SELECT -/

/-- Parsing to a single SELECT lands `validate` in `validateSelect`. -/
theorem validate_single_select (cfg : SqlPolicyConfig) (parse : SqlParse) (sql : String)
    (sel : ParsedSelect) (hparse : parse sql = .ok [.select sel]) :
    SqlPolicy.validate cfg parse sql = .ok (SqlPolicy.validateSelect cfg sql sel) := by
  unfold SqlPolicy.validate
  rw [hparse]
  rfl

/-- The sanitized SQL and effective limit of a single-SELECT validation. -/
theorem validateSelect_fields (cfg : SqlPolicyConfig) (sql : String) (sel : ParsedSelect) :
    (SqlPolicy.validateSelect cfg sql sel).effectiveLimit =
      (forcedLimit cfg sel.limit (stripTrailingSemi sql)).1 ∧
    (SqlPolicy.validateSelect cfg sql sel).sanitizedSql =
      (forcedLimit cfg sel.limit (stripTrailingSemi sql)).2 ∧
    (SqlPolicy.validateSelect cfg sql sel).errors =
      (if (SqlPolicy.tableErrors cfg (extractTables sel []) ++
          SqlPolicy.fnErrors cfg sql).length > 0 then
        SqlPolicy.tableErrors cfg (extractTables sel []) ++ SqlPolicy.fnErrors cfg sql
       else []) ∧
    (SqlPolicy.validateSelect cfg sql sel).valid =
      !decide ((SqlPolicy.tableErrors cfg (extractTables sel []) ++
        SqlPolicy.fnErrors cfg sql).length > 0) := by
  by_cases h : (SqlPolicy.tableErrors cfg (extractTables sel []) ++
      SqlPolicy.fnErrors cfg sql).length > 0
  · simp only [SqlPolicy.validateSelect, if_pos h]
    refine ⟨trivial, trivial, trivial, ?_⟩
    simp only [h, decide_True, Bool.not_true]
  · simp only [SqlPolicy.validateSelect, if_neg h]
    refine ⟨trivial, trivial, trivial, ?_⟩
    simp only [h, decide_False, Bool.not_false]

/-! ## C4: the forbidden-function scan and the pipeline's configuration -/

/-- C4 counterexample: a pipeline assembled with the default configuration
approves `sql.query` on `SELECT pg_sleep(5) FROM t` with no errors — the
`Pipeline` constructor passes `forbiddenFunctions: []`, disabling the
blocklist. -/
theorem C4_counterexample :
    ∃ dec, PolicyEngine.validateAction (Pipeline.sqlPolicyConfig defaultPipelineConfig)
        parsePgSleep
        { tool := "sql.query", args := [("sql", .str "SELECT pg_sleep(5) FROM t")], reason := none } =
        .ok dec ∧ dec.approved = true ∧ dec.errors = [] := by
  refine ⟨_, rfl, by decide, by decide⟩

/-- C4 amended: the default forbidden-function list is only in force for a
`SqlPolicy` built with its own constructor defaults — there any
case-insensitive substring hit yields at least one error and an invalid
result.  A pipeline built with the default configuration passes
`forbiddenFunctions: []` and an empty table allowlist, so its SQL policy
approves every single-SELECT query with no errors at all. -/
theorem C4_forbidden_functions :
    (∀ (parse : SqlParse) (sql : String) (sel : ParsedSelect) (fn : String),
      fn ∈ DEFAULT_FORBIDDEN_FUNCTIONS →
      containsSubstr (jsToLower sql) (jsToLower fn) = true →
      parse sql = .ok [.select sel] →
      ∃ r, SqlPolicy.validate (SqlPolicy.configOf {}) parse sql = .ok r ∧
        r.valid = false ∧ r.errors ≠ []) ∧
    (∀ (config : PipelineConfig) (parse : SqlParse) (sql : String) (sel : ParsedSelect),
      config.allowedTables = none →
      parse sql = .ok [.select sel] →
      ∃ r, SqlPolicy.validate (Pipeline.sqlPolicyConfig config) parse sql = .ok r ∧
        r.valid = true ∧ r.errors = []) := by
  constructor
  · intro parse sql sel fn hfn hhit hparse
    refine ⟨_, validate_single_select _ parse sql sel hparse, ?_, ?_⟩
    · have hne : SqlPolicy.fnErrors (SqlPolicy.configOf {}) sql ≠ [] := by
        unfold SqlPolicy.fnErrors
        intro hnil
        rw [List.map_eq_nil_iff] at hnil
        have : fn ∈ List.filter
            (fun fn => containsSubstr (jsToLower sql) (jsToLower fn))
            (SqlPolicy.configOf {}).forbiddenFunctions :=
          List.mem_filter.mpr ⟨hfn, hhit⟩
        rw [hnil] at this
        exact List.not_mem_nil fn this
      have hlen : (SqlPolicy.tableErrors (SqlPolicy.configOf {}) (extractTables sel []) ++
          SqlPolicy.fnErrors (SqlPolicy.configOf {}) sql).length > 0 := by
        have := List.length_pos_iff_ne_nil.mpr hne
        rw [List.length_append]
        omega
      rw [(validateSelect_fields _ sql sel).2.2.2]
      simp only [hlen, decide_True, Bool.not_true]
    · have hne : SqlPolicy.fnErrors (SqlPolicy.configOf {}) sql ≠ [] := by
        unfold SqlPolicy.fnErrors
        intro hnil
        rw [List.map_eq_nil_iff] at hnil
        have : fn ∈ List.filter
            (fun fn => containsSubstr (jsToLower sql) (jsToLower fn))
            (SqlPolicy.configOf {}).forbiddenFunctions :=
          List.mem_filter.mpr ⟨hfn, hhit⟩
        rw [hnil] at this
        exact List.not_mem_nil fn this
      have hlen : (SqlPolicy.tableErrors (SqlPolicy.configOf {}) (extractTables sel []) ++
          SqlPolicy.fnErrors (SqlPolicy.configOf {}) sql).length > 0 := by
        have := List.length_pos_iff_ne_nil.mpr hne
        rw [List.length_append]
        omega
      rw [(validateSelect_fields _ sql sel).2.2.1]
      rw [if_pos hlen]
      intro hnil
      rw [List.append_eq_nil] at hnil
      exact hne hnil.2
  · intro config parse sql sel hdef hparse
    refine ⟨_, validate_single_select _ parse sql sel hparse, ?_, ?_⟩
    · have hT : SqlPolicy.tableErrors (Pipeline.sqlPolicyConfig config)
          (extractTables sel []) = [] := by
        unfold SqlPolicy.tableErrors
        rw [if_neg]
        show ¬ (Pipeline.sqlPolicyConfig config).allowedTables.length > 0
        simp [Pipeline.sqlPolicyConfig, SqlPolicy.configOf, hdef]
      have hF : SqlPolicy.fnErrors (Pipeline.sqlPolicyConfig config) sql = [] := by
        unfold SqlPolicy.fnErrors
        have : (Pipeline.sqlPolicyConfig config).forbiddenFunctions = [] := by
          simp [Pipeline.sqlPolicyConfig, SqlPolicy.configOf]
        rw [this]
        rfl
      rw [(validateSelect_fields _ sql sel).2.2.2]
      rw [hT, hF]
      decide
    · have hT : SqlPolicy.tableErrors (Pipeline.sqlPolicyConfig config)
          (extractTables sel []) = [] := by
        unfold SqlPolicy.tableErrors
        rw [if_neg]
        show ¬ (Pipeline.sqlPolicyConfig config).allowedTables.length > 0
        simp [Pipeline.sqlPolicyConfig, SqlPolicy.configOf, hdef]
      have hF : SqlPolicy.fnErrors (Pipeline.sqlPolicyConfig config) sql = [] := by
        unfold SqlPolicy.fnErrors
        have : (Pipeline.sqlPolicyConfig config).forbiddenFunctions = [] := by
          simp [Pipeline.sqlPolicyConfig, SqlPolicy.configOf]
        rw [this]
        rfl
      rw [(validateSelect_fields _ sql sel).2.2.1]
      simp [hT, hF]

/-- Witness for C4: `pg_sleep` is flagged by a standalone default policy. -/
theorem C4_forbidden_functions_witness :
    ∃ r, SqlPolicy.validate (SqlPolicy.configOf {}) parsePgSleep
        "SELECT pg_sleep(5) FROM t" = .ok r ∧ r.valid = false ∧ r.errors ≠ [] :=
  C4_forbidden_functions.1 parsePgSleep "SELECT pg_sleep(5) FROM t"
    (.mk [.table (some "t")] none) "pg_sleep" (by decide) (by decide) rfl

/-! ## C6: literal LIMIT rewriting -/

/-- C6: for every accepted query whose parsed LIMIT is a literal integer `n`,
the effective limit is `min n maxRows` and the sanitized SQL is the
semicolon-stripped original with its first textual LIMIT clause rewritten to
that effective limit; concretely, with `maxRows = 200`, `LIMIT 201` is
accepted with effective limit 200 and a rewritten SQL, and `LIMIT 0` is
accepted with effective limit 0. -/
theorem C6_limit_rewrite :
    (∀ (cfg : SqlPolicyConfig) (parse : SqlParse) (sql : String)
        (fromItems : List FromItem) (n : Nat),
      parse sql = .ok [.select (.mk fromItems (some (.integer n)))] →
      ∃ r, SqlPolicy.validate cfg parse sql = .ok r ∧
        r.effectiveLimit = min n cfg.maxRows ∧
        r.sanitizedSql = replaceLimitInSql (stripTrailingSemi sql) (min n cfg.maxRows)) ∧
    SqlPolicy.validate (SqlPolicy.configOf {}) parse201 "SELECT id FROM users LIMIT 201" =
      .ok { valid := true, sanitizedSql := "SELECT id FROM users LIMIT 200",
            effectiveLimit := 200, referencedTables := ["users"], errors := [] } ∧
    SqlPolicy.validate (SqlPolicy.configOf {}) parseLim0 "SELECT id FROM users LIMIT 0" =
      .ok { valid := true, sanitizedSql := "SELECT id FROM users LIMIT 0",
            effectiveLimit := 0, referencedTables := ["users"], errors := [] } := by
  refine ⟨?_, by decide, by decide⟩
  intro cfg parse sql fromItems n hparse
  refine ⟨_, validate_single_select cfg parse sql _ hparse, ?_, ?_⟩
  · rw [(validateSelect_fields cfg sql _).1]
    rfl
  · rw [(validateSelect_fields cfg sql _).2.1]
    rfl

/-- Witness for C6 at the `LIMIT 201` query. -/
theorem C6_limit_rewrite_witness :
    ∃ r, SqlPolicy.validate (SqlPolicy.configOf {}) parse201
        "SELECT id FROM users LIMIT 201" = .ok r ∧
      r.effectiveLimit = min 201 (SqlPolicy.configOf {}).maxRows ∧
      r.sanitizedSql = replaceLimitInSql (stripTrailingSemi "SELECT id FROM users LIMIT 201")
        (min 201 (SqlPolicy.configOf {}).maxRows) :=
  C6_limit_rewrite.1 (SqlPolicy.configOf {}) parse201 "SELECT id FROM users LIMIT 201"
    [.table (some "users")] 201 rfl

/-! ## C2: the LIMIT clause of sanitized SQL

Support lemmas about decimal digits and the scanner, then the amended claim.
`injectedTail m` is the character suffix that appending `" LIMIT " ++ m`
produces. -/

theorem charOfNat_digit_toNat (d : Nat) (h : d < 10) :
    (Char.ofNat (48 + d)).toNat = 48 + d := by
  interval_cases d <;> decide

theorem charOfNat_digit_props (d : Nat) (h : d < 10) :
    Char.isDigit (Char.ofNat (48 + d)) = true ∧
    isJsSpace (Char.ofNat (48 + d)) = false ∧
    lowEq (Char.ofNat (48 + d)) 'l' = false ∧
    isWordChar (Char.ofNat (48 + d)) = true := by
  interval_cases d <;> exact ⟨by decide, by decide, by decide, by decide⟩

theorem digitsVal_append_singleton (xs : List Char) (c : Char) :
    digitsVal (xs ++ [c]) = digitsVal xs * 10 + (c.toNat - 48) := by
  unfold digitsVal
  rw [List.foldl_append]
  rfl

theorem decDigitsAux_spec : ∀ (fuel n : Nat), n < fuel →
    decDigitsAux fuel n ≠ [] ∧
    digitsVal (decDigitsAux fuel n) = n ∧
    ∀ c ∈ decDigitsAux fuel n, Char.isDigit c = true ∧ isJsSpace c = false ∧
      lowEq c 'l' = false ∧ isWordChar c = true := by
  intro fuel
  induction fuel with
  | zero => intro n h; omega
  | succ fuel ih =>
    intro n h
    by_cases h10 : n < 10
    · have hd : decDigitsAux (fuel + 1) n = [Char.ofNat (48 + n)] := by
        unfold decDigitsAux
        rw [if_pos h10]
      rw [hd]
      refine ⟨by simp, ?_, ?_⟩
      · show digitsVal ([] ++ [Char.ofNat (48 + n)]) = n
        rw [digitsVal_append_singleton, charOfNat_digit_toNat n h10]
        show 0 * 10 + (48 + n - 48) = n
        omega
      · intro c hc
        rw [List.mem_singleton] at hc
        subst hc
        exact charOfNat_digit_props n h10
    · have hd : decDigitsAux (fuel + 1) n =
          decDigitsAux fuel (n / 10) ++ [Char.ofNat (48 + n % 10)] := by
        simp only [decDigitsAux]
        rw [if_neg h10]
      have hlt : n / 10 < fuel := by omega
      obtain ⟨ih1, ih2, ih3⟩ := ih (n / 10) hlt
      have hmod : n % 10 < 10 := Nat.mod_lt n (by omega)
      rw [hd]
      refine ⟨by simp, ?_, ?_⟩
      · rw [digitsVal_append_singleton, ih2, charOfNat_digit_toNat _ hmod]
        omega
      · intro c hc
        rcases List.mem_append.mp hc with hc | hc
        · exact ih3 c hc
        · rw [List.mem_singleton] at hc
          subst hc
          exact charOfNat_digit_props _ hmod

theorem decDigits_spec (m : Nat) :
    decDigits m ≠ [] ∧
    digitsVal (decDigits m) = m ∧
    ∀ c ∈ decDigits m, Char.isDigit c = true ∧ isJsSpace c = false ∧
      lowEq c 'l' = false ∧ isWordChar c = true :=
  decDigitsAux_spec (m + 1) m (Nat.lt_succ_self m)

theorem takeWhile_nil_of_head {p : Char → Bool} (c : Char) (l : List Char)
    (h : p c = false) : (c :: l).takeWhile p = [] := by
  simp [List.takeWhile, h]

theorem dropWhile_cons_of_head {p : Char → Bool} (c : Char) (l : List Char)
    (h : p c = false) : (c :: l).dropWhile p = c :: l := by
  simp [List.dropWhile, h]

theorem takeWhile_all {p : Char → Bool} : ∀ (l : List Char),
    (∀ c ∈ l, p c = true) → l.takeWhile p = l := by
  intro l
  induction l with
  | nil => intro _; rfl
  | cons c t ih =>
    intro h
    have hc := h c (List.mem_cons_self c t)
    have ht := ih (fun d hd => h d (List.mem_cons_of_mem c hd))
    simp [List.takeWhile, hc, ht]

theorem dropWhile_all {p : Char → Bool} : ∀ (l : List Char),
    (∀ c ∈ l, p c = true) → l.dropWhile p = [] := by
  intro l
  induction l with
  | nil => intro _; rfl
  | cons c t ih =>
    intro h
    have hc := h c (List.mem_cons_self c t)
    have ht := ih (fun d hd => h d (List.mem_cons_of_mem c hd))
    simp [List.dropWhile, hc, ht]

theorem matchLimitHead_cons5 (c1 c2 c3 c4 c5 : Char) (rest : List Char) :
    matchLimitHead (c1 :: c2 :: c3 :: c4 :: c5 :: rest) =
      (if (lowEq c1 'l' && lowEq c2 'i' && lowEq c3 'm' && lowEq c4 'i' && lowEq c5 't') = true then
        if (rest.takeWhile isJsSpace).isEmpty = true then none
        else
          if ((rest.dropWhile isJsSpace).takeWhile Char.isDigit).isEmpty = true then none
          else some (digitsVal ((rest.dropWhile isJsSpace).takeWhile Char.isDigit),
            (rest.dropWhile isJsSpace).dropWhile Char.isDigit)
      else none) := rfl

theorem matchLimitHead_none_of_head (c : Char) (cs : List Char)
    (h : lowEq c 'l' = false) : matchLimitHead (c :: cs) = none := by
  rcases cs with _ | ⟨c2, cs⟩
  · rfl
  rcases cs with _ | ⟨c3, cs⟩
  · rfl
  rcases cs with _ | ⟨c4, cs⟩
  · rfl
  rcases cs with _ | ⟨c5, cs⟩
  · rfl
  rw [matchLimitHead_cons5, h]
  rfl

theorem scan_no_limit_word : ∀ (l : List Char) (b : Bool),
    (∀ c ∈ l, lowEq c 'l' = false) → limitLiteralsAux b l = [] := by
  intro l
  induction l with
  | nil => intro b _; rfl
  | cons c t ih =>
    intro b h
    have hc := h c (List.mem_cons_self c t)
    have ht := ih (isWordChar c) (fun d hd => h d (List.mem_cons_of_mem c hd))
    unfold limitLiteralsAux
    rw [matchLimitHead_none_of_head c t hc]
    cases b <;> simp [ht]

theorem scan_step_wordtrue (c : Char) (hc : isWordChar c = true) (rest : List Char) :
    limitLiteralsAux true (c :: rest) = limitLiteralsAux true rest := by
  conv_lhs => unfold limitLiteralsAux
  simp [hc]

theorem scan_step_tospace (rest : List Char) :
    limitLiteralsAux true (' ' :: rest) = limitLiteralsAux false rest := by
  have h : isWordChar ' ' = false := by decide
  conv_lhs => unfold limitLiteralsAux
  simp [h]

theorem scan_injectedTail (m : Nat) (b : Bool) :
    limitLiteralsAux b (injectedTail m) = [m] := by
  obtain ⟨hne, hval, hprops⟩ := decDigits_spec m
  -- step over the leading space
  have hstep : limitLiteralsAux b (injectedTail m) =
      limitLiteralsAux false ('L' :: 'I' :: 'M' :: 'I' :: 'T' :: ' ' :: decDigits m) := by
    unfold injectedTail
    unfold limitLiteralsAux
    rw [matchLimitHead_none_of_head ' ' _ (by decide)]
    cases b <;> rfl
  rw [hstep]
  -- the match at L
  have hmatch : matchLimitHead ('L' :: 'I' :: 'M' :: 'I' :: 'T' :: ' ' :: decDigits m) =
      some (m, []) := by
    rw [matchLimitHead_cons5]
    rw [if_pos (by decide)]
    have htw : (' ' :: decDigits m).takeWhile isJsSpace = [' '] := by
      have hrest : (decDigits m).takeWhile isJsSpace = [] := by
        cases hd : decDigits m with
        | nil => rfl
        | cons c t =>
          apply takeWhile_nil_of_head
          exact ((hprops c (by rw [hd]; exact List.mem_cons_self c t)).2.1)
      simp only [List.takeWhile, hrest]
      rfl
    have hdw : (' ' :: decDigits m).dropWhile isJsSpace = decDigits m := by
      have hrest : (decDigits m).dropWhile isJsSpace = decDigits m := by
        cases hd : decDigits m with
        | nil => rfl
        | cons c t =>
          apply dropWhile_cons_of_head
          exact ((hprops c (by rw [hd]; exact List.mem_cons_self c t)).2.1)
      simp only [List.dropWhile, hrest]
      rfl
    rw [htw, hdw]
    rw [if_neg (by simp)]
    rw [takeWhile_all (decDigits m) (fun c hc => (hprops c hc).1)]
    rw [dropWhile_all (decDigits m) (fun c hc => (hprops c hc).1)]
    rw [if_neg (by simpa using hne)]
    rw [hval]
  unfold limitLiteralsAux
  rw [hmatch]
  simp only [Bool.not_false, if_true]
  -- the scan of the remainder finds nothing
  have hT : limitLiteralsAux (isWordChar 'L') ('I' :: 'M' :: 'I' :: 'T' :: ' ' :: decDigits m) =
      limitLiteralsAux false (decDigits m) := by
    rw [show isWordChar 'L' = true from by decide]
    rw [scan_step_wordtrue 'I' (by decide), scan_step_wordtrue 'M' (by decide),
      scan_step_wordtrue 'I' (by decide), scan_step_wordtrue 'T' (by decide),
      scan_step_tospace]
  rw [hT]
  rw [scan_no_limit_word (decDigits m) false (fun c hc => (hprops c hc).2.2.1)]

theorem matchLimitHead_append_none (m : Nat) (c : Char) (cs : List Char)
    (h : containsLimitWord (c :: cs) = false) :
    matchLimitHead (c :: (cs ++ injectedTail m)) = none := by
  rcases cs with _ | ⟨a2, cs⟩
  · unfold matchLimitHead injectedTail
    simp [lowEq]
  rcases cs with _ | ⟨a3, cs⟩
  · unfold matchLimitHead injectedTail
    simp [lowEq]
  rcases cs with _ | ⟨a4, cs⟩
  · unfold matchLimitHead injectedTail
    simp [lowEq]
  rcases cs with _ | ⟨a5, cs⟩
  · unfold matchLimitHead injectedTail
    simp [lowEq]
  unfold containsLimitWord at h
  rw [Bool.or_eq_false_iff] at h
  simp only [List.cons_append]
  rw [matchLimitHead_cons5]
  rw [if_neg]
  intro hcond
  rw [h.1] at hcond
  exact Bool.false_ne_true hcond

theorem scan_append_injected (m : Nat) : ∀ (cs : List Char) (b : Bool),
    containsLimitWord cs = false →
    limitLiteralsAux b (cs ++ injectedTail m) = [m] := by
  intro cs
  induction cs with
  | nil => intro b _; exact scan_injectedTail m b
  | cons c t ih =>
    intro b h
    have ht : containsLimitWord t = false := by
      rcases t with _ | ⟨a2, t'⟩
      · rfl
      rcases t' with _ | ⟨a3, t''⟩
      · rfl
      rcases t'' with _ | ⟨a4, t3⟩
      · rfl
      rcases t3 with _ | ⟨a5, t4⟩
      · rfl
      unfold containsLimitWord at h
      rw [Bool.or_eq_false_iff] at h
      exact h.2
    have hmatch := matchLimitHead_append_none m c t h
    rw [List.cons_append]
    unfold limitLiteralsAux
    rw [hmatch]
    cases b <;> simp [ih (isWordChar c) ht]

/-- Witness for C8 at a concrete accepted plan. -/
theorem C8_plan_validator_witness :
    1 ≤ (Plan.actions
      { intent := "count rows", actions := [{ tool := "sql.query", args := [("sql", Json.str "SELECT COUNT(*) FROM t")], reason := none }], constraints := none, needsClarification := false, clarificationQuestion := none }).length :=
  ((C8_plan_validator
    { intent := "count rows", actions := [{ tool := "sql.query", args := [("sql", Json.str "SELECT COUNT(*) FROM t")], reason := none }], constraints := none, needsClarification := some false, clarificationQuestion := none }).1
    _ (by rfl)).1

/-! ## C2: the sanitized SQL handed to connectors and its LIMIT clause -/

theorem forcedLimit_fst_le (cfg : SqlPolicyConfig) (ln : Option LimitNode) (s : String) :
    (forcedLimit cfg ln s).1 ≤ cfg.maxRows := by
  cases ln with
  | none => exact Nat.le_refl _
  | some node =>
    cases node with
    | integer v => exact Nat.min_le_right v cfg.maxRows
    | nonLiteral => exact Nat.le_refl _

theorem data_append_injected (s : String) (m : Nat) :
    (s ++ " LIMIT " ++ decimalString m).data = s.data ++ injectedTail m := by
  rw [String.data_append, String.data_append, List.append_assoc]
  rfl

/-- C2 counterexample: the policy stage approves a `sql.query` whose
sub-select carries its own literal LIMIT; because the outer statement has no
LIMIT node, the gate appends `LIMIT 200`, and the sanitized SQL handed to the
connector contains two literal LIMIT clauses, not exactly one. -/
theorem C2_counterexample :
    PolicyEngine.validateAction (SqlPolicy.configOf {}) parseSubLimit sqlActionSub =
      .ok { action := sqlActionSub, approved := true,
            sanitizedArgs := some [("sql",
              Json.str "SELECT * FROM (SELECT * FROM t LIMIT 5) s LIMIT 200")],
            errors := [] } ∧
    limitLiterals "SELECT * FROM (SELECT * FROM t LIMIT 5) s LIMIT 200" = [5, 200] ∧
    exactlyOneLimitLe "SELECT * FROM (SELECT * FROM t LIMIT 5) s LIMIT 200"
      (SqlPolicy.configOf {}).maxRows = false := by
  exact ⟨rfl, by decide, by decide⟩

/-- C2 (amended): for every policy-approved single-SELECT `sql.query`, the
effective limit taken from the AST never exceeds `maxRows`; and when the
statement carries no LIMIT node and its text contains no LIMIT word, the
sanitized SQL contains exactly one literal LIMIT clause, whose value is
`maxRows`.  The textual exactly-one-LIMIT property does not hold for queries
that already carry a LIMIT clause elsewhere in their text. -/
theorem C2_sanitized_limit (cfg : SqlPolicyConfig) (parse : SqlParse) (sql : String)
    (sel : ParsedSelect) (hparse : parse sql = .ok [.select sel]) :
    ∃ r, SqlPolicy.validate cfg parse sql = .ok r ∧
      r.effectiveLimit ≤ cfg.maxRows ∧
      (sel.limit = none →
        containsLimitWord (stripTrailingSemi sql).data = false →
        limitLiterals r.sanitizedSql = [cfg.maxRows] ∧
        exactlyOneLimitLe r.sanitizedSql cfg.maxRows = true) := by
  refine ⟨_, validate_single_select cfg parse sql sel hparse, ?_, ?_⟩
  · rw [(validateSelect_fields cfg sql sel).1]
    exact forcedLimit_fst_le cfg sel.limit (stripTrailingSemi sql)
  · intro hnone hword
    have hsan : (SqlPolicy.validateSelect cfg sql sel).sanitizedSql =
        stripTrailingSemi sql ++ " LIMIT " ++ decimalString cfg.maxRows := by
      rw [(validateSelect_fields cfg sql sel).2.1, hnone]
      rfl
    have hlits : limitLiterals ((SqlPolicy.validateSelect cfg sql sel).sanitizedSql) =
        [cfg.maxRows] := by
      rw [hsan]
      unfold limitLiterals
      rw [data_append_injected]
      exact scan_append_injected cfg.maxRows (stripTrailingSemi sql).data false hword
    refine ⟨hlits, ?_⟩
    unfold exactlyOneLimitLe
    rw [hlits]
    simp

/-- Witness for C2 at `SELECT a FROM t` under the constructor-default policy
configuration (`maxRows = 200`). -/
theorem C2_sanitized_limit_witness :
    ∃ r, SqlPolicy.validate (SqlPolicy.configOf {}) parseSelT "SELECT a FROM t" = .ok r ∧
      r.effectiveLimit ≤ 200 ∧ limitLiterals r.sanitizedSql = [200] ∧
      exactlyOneLimitLe r.sanitizedSql 200 = true := by
  obtain ⟨r, h1, h2, h3⟩ := C2_sanitized_limit (SqlPolicy.configOf {}) parseSelT
    "SELECT a FROM t" (.mk [.table (some "t")] none) (by rfl)
  have h4 := h3 rfl (by decide)
  exact ⟨r, h1, h2, h4.1, h4.2⟩

/-! ## C5: SQL parse failures inside the policy stage -/

theorem validate_parse_error (cfg : SqlPolicyConfig) (parse : SqlParse) (sql m : String)
    (hparse : parse sql = .error m) :
    SqlPolicy.validate cfg parse sql = .error ("Failed to parse SQL: " ++ m) := by
  unfold SqlPolicy.validate
  rw [hparse]
  rfl

/-- C5 counterexample: a two-action plan whose first `sql.query` fails to
parse is aborted by the policy stage with a thrown error and no decisions at
all, although the second action on its own would have been approved. -/
theorem C5_counterexample :
    PolicyEngine.validatePlan (SqlPolicy.configOf {}) (ToolGate.configOf {}) parseSelT
      planBadFirst = .error "Failed to parse SQL: unexpected input" ∧
    (∃ pr, PolicyEngine.validateAction (SqlPolicy.configOf {}) parseSelT sqlActionB =
      .ok pr ∧ pr.approved = true) := by
  exact ⟨rfl, ⟨_, rfl, by decide⟩⟩

/-- C5 (amended): a SQL parse failure is not converted into a policy
decision.  `validateAction` re-raises it (`Failed to parse SQL: …`), and
`validatePlan` on a plan whose first action carries the failing SQL aborts
with that error before validating any other action. -/
theorem C5_parse_failure (sqlCfg : SqlPolicyConfig) (parse : SqlParse)
    (action : PlanAction) (sql m : String)
    (htool : action.tool = "sql.query")
    (harg : lookupArg action.args "sql" = some (.str sql))
    (hparse : parse sql = .error m) :
    PolicyEngine.validateAction sqlCfg parse action =
      .error ("Failed to parse SQL: " ++ m) ∧
    (∀ (gateCfg : ToolGateConfig) (plan : Plan) (rest : List PlanAction),
      plan.actions = action :: rest →
      ToolGate.validateActions gateCfg plan.actions = .ok () →
      PolicyEngine.validatePlan sqlCfg gateCfg parse plan =
        .error ("Failed to parse SQL: " ++ m)) := by
  have h1 : PolicyEngine.validateAction sqlCfg parse action =
      .error ("Failed to parse SQL: " ++ m) := by
    unfold PolicyEngine.validateAction
    rw [htool]
    simp only [beq_self_eq_true, if_true, harg,
      validate_parse_error sqlCfg parse sql m hparse]
    rfl
  refine ⟨h1, ?_⟩
  intro gateCfg plan rest hplan hgate
  unfold PolicyEngine.validatePlan
  rw [hplan] at hgate ⊢
  rw [hgate]
  simp only [List.mapM_cons, h1]
  rfl

/-- Witness for C5 at the concrete two-action plan. -/
theorem C5_parse_failure_witness :
    PolicyEngine.validateAction (SqlPolicy.configOf {}) parseSelT sqlActionBad =
      .error "Failed to parse SQL: unexpected input" ∧
    PolicyEngine.validatePlan (SqlPolicy.configOf {}) (ToolGate.configOf {}) parseSelT
      planBadFirst = .error "Failed to parse SQL: unexpected input" := by
  have h := C5_parse_failure (SqlPolicy.configOf {}) parseSelT sqlActionBad
    "SELEKT x FROM" "unexpected input" rfl rfl rfl
  exact ⟨h.1, h.2 (ToolGate.configOf {}) planBadFirst [sqlActionB] rfl (by decide)⟩

/-! ## C10: the all-actions-blocked branch of the non-streaming run -/

theorem except_bind_ok {ε α β : Type} (a : α) (f : α → Except ε β) :
    (Except.ok a >>= f : Except ε β) = f a := rfl

/-- C10: when planning succeeds without clarification and per-action policy
validation rejects every action, `run` returns normally: empty tool calls and
results, a rejected verifier report whose summary lists the policy errors,
and a blocked-by-policy answer with no citations. -/
theorem C10_policy_blocked (config : PipelineConfig) (env : RuntimeEnv)
    (parse : SqlParse) (context : PipelineContext) (plan : Plan)
    (prs : List PolicyResult)
    (hplan : Planner.plan (Pipeline.plannerConfig config) context.userMessage
      (Pipeline.buildSystemContext context)
      (config.allowedTools.getD ["sql.query", "rag.search"]) = .ok plan)
    (hclar : plan.needsClarification = false)
    (hpol : PolicyEngine.validatePlan (Pipeline.sqlPolicyConfig config)
      (Pipeline.toolGateConfig config) parse plan = .ok prs)
    (hblocked : ∀ r ∈ prs, r.approved = false) :
    Pipeline.run config env parse context =
      .ok { plan := plan, toolCalls := [], toolResults := []
            verifierReport := { approved := false, checks := []
                                summary := some ("Policy blocked: " ++ String.intercalate "; "
                                  ((prs.map (fun r => r.errors)).flatten))
                                suggestedActions := none }
            answer := { content := "Your query was blocked by the safety policy: " ++
                          String.intercalate "; " ((prs.map (fun r => r.errors)).flatten) ++
                          ". Please adjust your question.",
                        citations := [], followUps := none } } := by
  have hfilter : prs.filter (fun r => !r.approved) = prs := by
    apply List.filter_eq_self.mpr
    intro r hr
    rw [hblocked r hr]
    rfl
  unfold Pipeline.run
  simp only [hplan, except_bind_ok, hclar, Bool.false_eq_true, if_false, hpol, hfilter,
    beq_self_eq_true, if_true]
  rfl

/-- Witness for C10: a two-action plan under a parser oracle that sees every
statement as an UPDATE, so both actions are rejected. -/
theorem C10_policy_blocked_witness :
    ∃ res, Pipeline.run configTwoActions testEnv parseUpdate ctxFix = .ok res ∧
      res.toolCalls = [] ∧ res.toolResults = [] ∧
      res.verifierReport.approved = false ∧
      res.verifierReport.summary = some ("Policy blocked: " ++
        "Only SELECT queries are allowed. Received: UPDATE." ++ "; " ++
        "Only SELECT queries are allowed. Received: UPDATE.") ∧
      res.answer.content = ("Your query was blocked by the safety policy: " ++
        "Only SELECT queries are allowed. Received: UPDATE." ++ "; " ++
        "Only SELECT queries are allowed. Received: UPDATE." ++
        ". Please adjust your question.") ∧
      res.answer.citations = [] := by
  refine ⟨_, C10_policy_blocked configTwoActions testEnv parseUpdate ctxFix _ _
    rfl rfl rfl (by decide), rfl, rfl, rfl, rfl, rfl, rfl⟩

/-! ## Stream shape lemmas shared by the temporal claims -/

theorem streamToolLoop_fst_cons (conns : ToolConnectors) (env : RuntimeEnv)
    (ctx : PipelineContext) (i : Nat) (p : PolicyResult) (rest : List PolicyResult) :
    (Pipeline.streamToolLoop conns env ctx i (p :: rest)).1 =
      SseEvent.toolCallStart p.action.tool (p.sanitizedArgs.getD p.action.args) ::
      (let result := ToolRuntime.executeOne conns env i ctx p.action
          (p.sanitizedArgs.getD p.action.args)
       SseEvent.toolCallEnd result.toolCall.toolName result.toolCall.status
         result.toolCall.durationMs
         ((result.toolResult.map (fun tr => tr.rowCount.getD 0)).getD 0)
         result.toolCall.errorMessage) ::
      (Pipeline.streamToolLoop conns env ctx (i + 1) rest).1 := by
  simp only [Pipeline.streamToolLoop]

theorem loop_fst_tags (conns : ToolConnectors) (env : RuntimeEnv) (ctx : PipelineContext) :
    ∀ (prs : List PolicyResult) (i : Nat),
    tagsOf (Pipeline.streamToolLoop conns env ctx i prs).1 = pairTags prs.length := by
  intro prs
  induction prs with
  | nil => intro i; rfl
  | cons p rest ih =>
    intro i
    rw [streamToolLoop_fst_cons]
    simp only [tagsOf, List.map_cons, SseEvent.tag, List.length_cons, pairTags]
    exact congrArg _ (congrArg _ (ih (i + 1)))

theorem loop_fst_no_error (conns : ToolConnectors) (env : RuntimeEnv) (ctx : PipelineContext) :
    ∀ (prs : List PolicyResult) (i : Nat),
    (Pipeline.streamToolLoop conns env ctx i prs).1.all
      (fun e => !SseEvent.isErrorEvent e) = true := by
  intro prs
  induction prs with
  | nil => intro i; rfl
  | cons p rest ih =>
    intro i
    rw [streamToolLoop_fst_cons]
    simp only [List.all_cons, SseEvent.isErrorEvent, Bool.not_false, Bool.true_and]
    exact ih (i + 1)

theorem endsWithDone_cons_of (a : Tag) (l : List Tag) (h : endsWithDone l = true) :
    endsWithDone (a :: l) = true := by
  cases l with
  | nil => exact absurd h (by simp [endsWithDone])
  | cons b bs => exact h

theorem endsWithDone_append_of (pre l : List Tag) (h : endsWithDone l = true) :
    endsWithDone (pre ++ l) = true := by
  induction pre with
  | nil => exact h
  | cons a pre ih =>
    simp only [List.cons_append]
    exact endsWithDone_cons_of a _ ih

theorem count_done_pairTags (n : Nat) : (pairTags n).count Tag.done = 0 := by
  induction n with
  | zero => rfl
  | succ n ih => simp [pairTags, List.count_cons, ih]

theorem count_done_token_tags (ts : List String) :
    (tagsOf (ts.map SseEvent.token)).count Tag.done = 0 := by
  induction ts with
  | nil => rfl
  | cons t ts ih =>
    rw [tagsOf] at ih ⊢
    rw [List.map_cons, List.map_cons, List.count_cons]
    rw [ih]
    simp [SseEvent.tag]

theorem emittedTokensEnd_tokens (ts : List String) (evs : List SseEvent) :
    emittedTokensEnd (tagsOf (ts.map SseEvent.token ++ evs)) =
      emittedTokensEnd (tagsOf evs) := by
  induction ts with
  | nil => rfl
  | cons t ts ih => exact ih

theorem emittedAfterPairs_pairs (n : Nat) (rest : List Tag) :
    emittedAfterPairs (pairTags n ++ rest) = emittedAfterPairs rest := by
  induction n with
  | zero => rfl
  | succ n ih => exact ih

theorem emittedOrderOk_tools (rest : List Tag) :
    emittedOrderOk (Tag.meta :: Tag.status .planning :: Tag.plan :: Tag.status .policy ::
      Tag.status .toolsRunning :: rest) = emittedPairsOnePlus rest := rfl

theorem emittedPairsOnePlus_pairs (n : Nat) (rest : List Tag) :
    emittedPairsOnePlus (pairTags (n + 1) ++ rest) =
      emittedAfterPairs (pairTags n ++ rest) := rfl

theorem streamAnswerPhase_tokensEnd (llm : LlmAdapter) (req : LlmAnswerRequest) :
    emittedTokensEnd (tagsOf (Pipeline.streamAnswerPhase llm req)) = true := by
  unfold Pipeline.streamAnswerPhase
  cases hsa : (llm.streamAnswer req).2 with
  | some e => rw [emittedTokensEnd_tokens]; rfl
  | none =>
    cases hga : llm.generateAnswer req with
    | ok a => rw [emittedTokensEnd_tokens]; rfl
    | error e => rw [emittedTokensEnd_tokens]; rfl

theorem streamAnswerPhase_count_done (llm : LlmAdapter) (req : LlmAnswerRequest) :
    (tagsOf (Pipeline.streamAnswerPhase llm req)).count Tag.done = 1 := by
  unfold Pipeline.streamAnswerPhase
  have h0 := count_done_token_tags ((llm.streamAnswer req).1)
  rw [tagsOf] at h0
  cases hsa : (llm.streamAnswer req).2 with
  | some e =>
    rw [tagsOf, List.map_append, List.count_append, h0]
    rfl
  | none =>
    cases hga : llm.generateAnswer req with
    | ok a =>
      rw [tagsOf, List.map_append, List.count_append, h0]
      rfl
    | error e =>
      rw [tagsOf, List.map_append, List.count_append, h0]
      rfl

theorem streamAnswerPhase_endsDone (llm : LlmAdapter) (req : LlmAnswerRequest) :
    endsWithDone (tagsOf (Pipeline.streamAnswerPhase llm req)) = true := by
  unfold Pipeline.streamAnswerPhase
  cases hsa : (llm.streamAnswer req).2 with
  | some e =>
    rw [tagsOf, List.map_append]
    exact endsWithDone_append_of _ _ rfl
  | none =>
    cases hga : llm.generateAnswer req with
    | ok a =>
      rw [tagsOf, List.map_append]
      exact endsWithDone_append_of _ _ rfl
    | error e =>
      rw [tagsOf, List.map_append]
      exact endsWithDone_append_of _ _ rfl

theorem stream_tool_branch_facts (a b : String) (p : Plan) (tevs : List SseEvent)
    (r : VerifierReport) (tail : List SseEvent) (m : Nat)
    (htevs : tagsOf tevs = pairTags (m + 1))
    (h1 : emittedTokensEnd (tagsOf tail) = true)
    (h2 : (tagsOf tail).count Tag.done = 1)
    (h3 : endsWithDone (tagsOf tail) = true) :
    emittedOrderOk (tagsOf (SseEvent.meta a b :: SseEvent.status .planning ::
      SseEvent.plan p :: SseEvent.status .policy :: SseEvent.status .toolsRunning ::
      (tevs ++ SseEvent.status .verifying :: SseEvent.verification r ::
       SseEvent.status .answering :: tail))) = true ∧
    (tagsOf (SseEvent.meta a b :: SseEvent.status .planning ::
      SseEvent.plan p :: SseEvent.status .policy :: SseEvent.status .toolsRunning ::
      (tevs ++ SseEvent.status .verifying :: SseEvent.verification r ::
       SseEvent.status .answering :: tail))).count Tag.done = 1 ∧
    endsWithDone (tagsOf (SseEvent.meta a b :: SseEvent.status .planning ::
      SseEvent.plan p :: SseEvent.status .policy :: SseEvent.status .toolsRunning ::
      (tevs ++ SseEvent.status .verifying :: SseEvent.verification r ::
       SseEvent.status .answering :: tail))) = true := by
  have htevs2 : List.map SseEvent.tag tevs = pairTags (m + 1) := by
    rw [tagsOf] at htevs
    exact htevs
  have htags : tagsOf (SseEvent.meta a b :: SseEvent.status .planning ::
      SseEvent.plan p :: SseEvent.status .policy :: SseEvent.status .toolsRunning ::
      (tevs ++ SseEvent.status .verifying :: SseEvent.verification r ::
       SseEvent.status .answering :: tail)) =
      Tag.meta :: Tag.status .planning :: Tag.plan :: Tag.status .policy ::
      Tag.status .toolsRunning :: (pairTags (m + 1) ++ (Tag.status .verifying ::
      Tag.verification :: Tag.status .answering :: tagsOf tail)) := by
    rw [tagsOf]
    simp only [List.map_cons, List.map_append, SseEvent.tag, htevs2]
    rfl
  rw [htags]
  refine ⟨?_, ?_, ?_⟩
  · rw [emittedOrderOk_tools, emittedPairsOnePlus_pairs, emittedAfterPairs_pairs]
    exact h1
  · rw [List.count_cons_of_ne (by decide), List.count_cons_of_ne (by decide),
      List.count_cons_of_ne (by decide), List.count_cons_of_ne (by decide),
      List.count_cons_of_ne (by decide), List.count_append, count_done_pairTags,
      List.count_cons_of_ne (by decide), List.count_cons_of_ne (by decide),
      List.count_cons_of_ne (by decide), h2]
  · apply endsWithDone_cons_of
    apply endsWithDone_cons_of
    apply endsWithDone_cons_of
    apply endsWithDone_cons_of
    apply endsWithDone_cons_of
    apply endsWithDone_append_of
    apply endsWithDone_cons_of
    apply endsWithDone_cons_of
    apply endsWithDone_cons_of
    exact h3

/-- C9 counterexample: a two-action run emits `status(toolsRunning)` once and
then two start/end pairs, which the specified repeated group
`[status(toolsRunning), tool_call_start, tool_call_end]*` rejects; the same
stream is well-formed for the order the code actually emits. -/
theorem C9_counterexample :
    claimedOrderOk (tagsOf (chatStreamEvents configTwoActions testEnv parseSelT ctxFix)) =
      false ∧
    emittedOrderOk (tagsOf (chatStreamEvents configTwoActions testEnv parseSelT ctxFix)) =
      true := by
  exact ⟨by decide, by decide⟩

/-- C9 (amended): every stream's tags follow the emitted order
`meta, status(planning), plan, status(policy), status(toolsRunning),
[tool_call_start, tool_call_end]+, status(verifying), verification,
status(answering), token*, (answer | error), done` — with the documented
prefix-plus-`error, done` closures on failure paths and the clarification
short-circuit — and `done` occurs exactly once, as the final tag. -/
theorem C9_event_order (config : PipelineConfig) (env : RuntimeEnv) (parse : SqlParse)
    (context : PipelineContext) :
    emittedOrderOk (tagsOf (chatStreamEvents config env parse context)) = true ∧
    (tagsOf (chatStreamEvents config env parse context)).count Tag.done = 1 ∧
    endsWithDone (tagsOf (chatStreamEvents config env parse context)) = true := by
  simp only [chatStreamEvents, Pipeline.stream]
  split
  · exact ⟨rfl, rfl, rfl⟩
  · split
    · exact ⟨rfl, rfl, rfl⟩
    · split
      · exact ⟨rfl, rfl, rfl⟩
      · rename_i plan hplan hclar prs hpol
        split
        · exact ⟨rfl, rfl, rfl⟩
        · rename_i hlen
          obtain ⟨m, hm⟩ : ∃ m, (List.filter (fun x => x.approved) prs).length = m + 1 := by
            rcases hL : (List.filter (fun x => x.approved) prs).length with _ | m
            · exact absurd (by rw [hL]; rfl) hlen
            · exact ⟨m, hL⟩
          have htevs : tagsOf (Pipeline.streamToolLoop config.conns env context 0
              (List.filter (fun x => x.approved) prs)).1 = pairTags (m + 1) := by
            rw [loop_fst_tags, hm]
          exact stream_tool_branch_facts _ _ _ _ _ _ m htevs
            (streamAnswerPhase_tokensEnd _ _) (streamAnswerPhase_count_done _ _)
            (streamAnswerPhase_endsDone _ _)

/-! ## C3: streamed runs in which every dispatched tool fails -/

theorem not_successful_of_failed (r : ToolExecutionResult) (h : isFailed r = true) :
    isSuccessful r = false := by
  unfold isFailed at h
  unfold isSuccessful
  rcases Bool.or_eq_true_iff.mp h with h1 | h1
  · rw [beq_iff_eq] at h1
    rw [h1]
    rfl
  · rw [Option.isNone_iff_eq_none] at h1
    rw [h1]
    simp

theorem verify_not_approved_of_all_failed (results : List ToolExecutionResult)
    (msg : String) (h : ∀ r ∈ results, isFailed r = true) :
    (Verifier.verify results msg).approved = false := by
  have hs : results.filter isSuccessful = [] := by
    rw [List.filter_eq_nil_iff]
    intro r hr
    rw [not_successful_of_failed r (h r hr)]
    exact Bool.false_ne_true
  unfold Verifier.verify
  simp only [hs]
  rfl

theorem tokens_no_error (ts : List String) :
    (ts.map SseEvent.token).all (fun e => !SseEvent.isErrorEvent e) = true := by
  induction ts with
  | nil => rfl
  | cons t ts ih =>
    simp only [List.map_cons, List.all_cons, SseEvent.isErrorEvent, Bool.not_false,
      Bool.true_and]
    exact ih

theorem streamAnswerPhase_no_error (llm : LlmAdapter) (req : LlmAnswerRequest)
    (a : Answer) (hsa : (llm.streamAnswer req).2 = none)
    (hga : llm.generateAnswer req = .ok a) :
    (Pipeline.streamAnswerPhase llm req).all (fun e => !SseEvent.isErrorEvent e) = true := by
  unfold Pipeline.streamAnswerPhase
  rw [hsa, hga]
  rw [List.all_append]
  rw [tokens_no_error]
  rfl

/-- C3 counterexample: a streamed run whose only dispatched tool fails still
produces no `error` event at all — the verifier rejection is followed by the
answering stage, not by a thrown `VERIFICATION_ERROR`. -/
theorem C3_counterexample :
    (Pipeline.stream configOneFailing testEnv parseSelT ctxFix).any
      SseEvent.isRejectedVerification = true ∧
    (Pipeline.stream configOneFailing testEnv parseSelT ctxFix).all
      (fun e => !SseEvent.isErrorEvent e) = true := by
  exact ⟨by decide, by decide⟩

/-- C3 (amended): when a streamed run dispatches at least one tool and every
dispatched tool fails, the stream contains a `verification` event whose
report has `approved = false`, but no `error` event follows: provided the
answer adapter itself does not throw, the stream carries no `error` event at
all and still ends with `done`. -/
theorem C3_all_tools_failed (config : PipelineConfig) (env : RuntimeEnv)
    (parse : SqlParse) (context : PipelineContext) (plan : Plan)
    (prs : List PolicyResult) (a : Answer)
    (hplan : Planner.plan (Pipeline.plannerConfig config) context.userMessage
      (Pipeline.buildSystemContext context)
      (config.allowedTools.getD ["sql.query", "rag.search"]) = .ok plan)
    (hclar : plan.needsClarification = false)
    (hpol : PolicyEngine.validatePlan (Pipeline.sqlPolicyConfig config)
      (Pipeline.toolGateConfig config) parse plan = .ok prs)
    (hlen : ((prs.filter (fun x => x.approved)).length == 0) = false)
    (hfail : ∀ r ∈ (Pipeline.streamToolLoop config.conns env context 0
      (prs.filter (fun x => x.approved))).2, isFailed r = true)
    (hsa : (config.llm.streamAnswer (Pipeline.streamAnswerReq config env context prs)).2 =
      none)
    (hga : config.llm.generateAnswer (Pipeline.streamAnswerReq config env context prs) =
      .ok a) :
    (Pipeline.stream config env parse context).any SseEvent.isRejectedVerification = true ∧
    (Pipeline.stream config env parse context).all
      (fun e => !SseEvent.isErrorEvent e) = true ∧
    endsWithDone (tagsOf (Pipeline.stream config env parse context)) = true := by
  simp only [Pipeline.stream]
  split
  · rename_i e heq
    rw [hplan] at heq
    simp at heq
  · rename_i plan2 heq
    rw [hplan] at heq
    obtain rfl := (Except.ok.inj heq).symm
    split
    · rename_i hcl
      rw [hclar] at hcl
      exact absurd hcl (by simp)
    · split
      · rename_i e2 heq2
        rw [hpol] at heq2
        simp at heq2
      · rename_i prs2 heq2
        rw [hpol] at heq2
        obtain rfl := (Except.ok.inj heq2).symm
        split
        · rename_i h0
          rw [hlen] at h0
          exact absurd h0 (by simp)
        · have hRapp := verify_not_approved_of_all_failed _ context.userMessage hfail
          refine ⟨?_, ?_, ?_⟩
          · simp only [List.any_cons, List.any_append, SseEvent.isRejectedVerification,
              hRapp, Bool.not_false, Bool.false_or, Bool.or_true, Bool.true_or]
          · simp only [List.all_cons, List.all_append]
            rw [loop_fst_no_error config.conns env context _ 0,
              streamAnswerPhase_no_error config.llm _ a hsa hga]
            rfl
          · rw [tagsOf]
            simp only [List.map_cons, List.map_append, SseEvent.tag]
            apply endsWithDone_cons_of
            apply endsWithDone_cons_of
            apply endsWithDone_cons_of
            apply endsWithDone_cons_of
            apply endsWithDone_append_of
            apply endsWithDone_cons_of
            apply endsWithDone_cons_of
            apply endsWithDone_cons_of
            rw [← tagsOf]
            exact streamAnswerPhase_endsDone _ _

/-- Witness for C3 at the single-action run whose SQL connector always
fails. -/
theorem C3_all_tools_failed_witness :
    (Pipeline.stream configOneFailing testEnv parseSelT ctxFix).any
      SseEvent.isRejectedVerification = true ∧
    (Pipeline.stream configOneFailing testEnv parseSelT ctxFix).all
      (fun e => !SseEvent.isErrorEvent e) = true ∧
    endsWithDone (tagsOf (Pipeline.stream configOneFailing testEnv parseSelT ctxFix)) =
      true := by
  refine C3_all_tools_failed configOneFailing testEnv parseSelT ctxFix _ _ _
    rfl rfl rfl (by decide) (by decide) rfl rfl

end CrmAi
